import Mathlib

/-!
Verification of the task-planner plan-generation pipeline.

This file gives a shallow embedding, in Lean 4, of the pure computational
core of the planner backend:

* `calculate_trip_dates` / `_parse_specific_date`
  (usecases/create_plan_usecase_helper.py),
* `_process_forecast_for_dates`, `_generate_seasonal_weather_estimate`,
  `_get_seasonal_patterns`, `_generate_weather_advisory`,
  `get_weather_for_trip_dates` (services/weather_service.py),
* `extract_day_weather_info` and `enrich_plan_with_external_data`
  (usecases/create_plan_usecase_helper.py),
* `_process_extracted_info` / `extract_goal_information`
  (services/ai_service.py),
* the generic-exception classification of `handle_exceptions`
  (utils/error_handler.py),

and proves or refutes the frozen behavioural claims about them.

Modelling conventions:
* `datetime` values are modelled at day granularity as `Int` day numbers
  counted from 1970-01-01 (all arithmetic in the code is whole days and
  `.date()` comparisons).  Python's `datetime.weekday()` (Monday = 0) is
  `pyWeekday`; 1970-01-01 was a Thursday.
* Python floats are modelled as exact rationals `ℚ`; `round` is modelled
  as exact half-to-even rounding.
* Python `%` and `//` on integers round toward negative infinity, which is
  `Int.fmod` / `Int.fdiv`.
* Regular-expression searches used by the code are small fixed patterns;
  each is implemented directly as a leftmost-match scanner with the same
  backtracking behaviour as the Python `re` engine on that pattern.
* Datetime range overflow (Python dates are bounded by year 9999) is not
  modelled: day numbers are unbounded integers.
-/

/-- Python `datetime.weekday()`: Monday = 0, ..., Sunday = 6.
Day number 0 (1970-01-01) was a Thursday (= 3). -/
def pyWeekday (d : Int) : Int := Int.fmod (d + 3) 7

/-- Gregorian leap-year test. -/
def isLeapYear (y : Int) : Bool :=
  Int.fmod y 4 = 0 && (Int.fmod y 100 != 0 || Int.fmod y 400 = 0)

/-- Number of days in month `m` of year `y` (month 1..12). -/
def monthLen (y m : Int) : Int :=
  if m = 1 then 31 else if m = 2 then (if isLeapYear y then 29 else 28)
  else if m = 3 then 31 else if m = 4 then 30 else if m = 5 then 31
  else if m = 6 then 30 else if m = 7 then 31 else if m = 8 then 31
  else if m = 9 then 30 else if m = 10 then 31 else if m = 11 then 30
  else 31

/-- Day number (days since 1970-01-01) of the civil date `y-m-d`
(Howard Hinnant's `days_from_civil` algorithm, floor division). -/
def daysFromCivil (y m d : Int) : Int :=
  let y2 := y - (if m ≤ 2 then 1 else 0)
  let era := Int.fdiv y2 400
  let yoe := y2 - era * 400
  let doy := Int.fdiv (153 * (m + (if m > 2 then -3 else 9)) + 2) 5 + d - 1
  let doe := yoe * 365 + Int.fdiv yoe 4 - Int.fdiv yoe 100 + doy
  era * 146097 + doe - 719468

/-- Civil date `(year, month, day)` of a day number
(Howard Hinnant's `civil_from_days` algorithm). -/
def civilFromDays (z0 : Int) : Int × Int × Int :=
  let z := z0 + 719468
  let era := Int.fdiv z 146097
  let doe := z - era * 146097
  let yoe := Int.fdiv (doe - Int.fdiv doe 1460 + Int.fdiv doe 36524 - Int.fdiv doe 146096) 365
  let y := yoe + era * 400
  let doy := doe - (365 * yoe + Int.fdiv yoe 4 - Int.fdiv yoe 100)
  let mp := Int.fdiv (5 * doy + 2) 153
  let d := doy - Int.fdiv (153 * mp + 2) 5 + 1
  let m := mp + (if mp < 10 then 3 else -9)
  (y + (if m ≤ 2 then 1 else 0), m, d)

/-- Year component of a day number. -/
def yearOf (z : Int) : Int := (civilFromDays z).1

/-- Month component of a day number. -/
def monthOf (z : Int) : Int := (civilFromDays z).2.1

/-- Zero-pad a (nonnegative) integer to two digits, as `strftime` does. -/
def pad2 (n : Int) : String :=
  if n < 10 then "0" ++ toString n else toString n

/-- Format `strftime("%Y-%m-%d")` of a day number. -/
def fmtDate (z : Int) : String :=
  let c := civilFromDays z
  toString c.1 ++ "-" ++ pad2 c.2.1 ++ "-" ++ pad2 c.2.2

/-- Format `strftime("%A")` (weekday name) of a day number. -/
def pyDayName (z : Int) : String :=
  [ "Monday", "Tuesday", "Wednesday", "Thursday", "Friday", "Saturday",
    "Sunday" ].getD (pyWeekday z).toNat ""

/-! ## String utilities (Python `in`, `.lower()`, small regex scanners) -/

/-- Predicate `startsWithSeq hay needle`: `needle` is a leading segment of `hay`
(character-by-character comparison). -/
def startsWithSeq : List Char → List Char → Bool
  | _, [] => true
  | [], _ :: _ => false
  | h :: t, n :: ns => h == n && startsWithSeq t ns

/-- Predicate `occursIn hay needle`: `needle` occurs contiguously somewhere in `hay`
(Python's `needle in hay` on strings). -/
def occursIn : List Char → List Char → Bool
  | [], needle => needle.isEmpty
  | h :: t, needle => startsWithSeq (h :: t) needle || occursIn t needle

/-- Python `sub in s` for strings. -/
def pyContains (s sub : String) : Bool := occursIn s.toList sub.toList

/-- Python `s.lower()` (ASCII case folding, mapped over the characters). -/
def pyLower (s : String) : String := String.mk (s.toList.map Char.toLower)

/-- Numeric value of a decimal digit character. -/
def digitVal (c : Char) : Int := (c.toNat : Int) - 48

/-- Value of a nonempty list of decimal digit characters. -/
def natOfDigits (l : List Char) : Int := l.foldl (fun a c => a * 10 + digitVal c) 0

/-- After a `\s+` gap: consume one-or-more whitespace then return the maximal
following `[a-zA-Z]+` run (the regex word capture), if nonempty. -/
def wsAlpha (l : List Char) : Option (List Char) :=
  match l with
  | [] => none
  | c :: rest =>
    if c.isWhitespace then
      let rest2 := rest.dropWhile Char.isWhitespace
      let w := rest2.takeWhile Char.isAlpha
      if w.isEmpty then none else some w
    else none

/-- Consume an ordinal suffix `st|nd|rd|th`, returning the remainder. -/
def ordinalTail (l : List Char) : Option (List Char) :=
  match l with
  | a :: b :: rest =>
    if (a = 's' ∧ b = 't') ∨ (a = 'n' ∧ b = 'd') ∨ (a = 'r' ∧ b = 'd') ∨
       (a = 't' ∧ b = 'h') then some rest else none
  | _ => none

/-- Try pattern 1, `(\d{1,2})(?:st|nd|rd|th)\s+([a-zA-Z]+)`, anchored at the
start of `l`, with the Python backtracking order (two digits first). -/
def p1At (l : List Char) : Option (Int × List Char) :=
  match l with
  | [] => none
  | c1 :: rest =>
    if c1.isDigit then
      let oneDigit :=
        match ordinalTail rest with
        | some r => match wsAlpha r with
                    | some w => some (digitVal c1, w)
                    | none => none
        | none => none
      match rest with
      | c2 :: rest2 =>
        if c2.isDigit then
          match ordinalTail rest2 with
          | some r =>
            match wsAlpha r with
            | some w => some (digitVal c1 * 10 + digitVal c2, w)
            | none => oneDigit
          | none => oneDigit
        else oneDigit
      | [] => none
    else none

/-- Leftmost search for pattern 1. -/
def p1Search : List Char → Option (Int × List Char)
  | [] => none
  | c :: rest =>
    match p1At (c :: rest) with
    | some r => some r
    | none => p1Search rest

/-- Try pattern 2, `(\d{1,2})\s+([a-zA-Z]+)`, anchored at the start of `l`. -/
def p2At (l : List Char) : Option (Int × List Char) :=
  match l with
  | [] => none
  | c1 :: rest =>
    if c1.isDigit then
      let oneDigit :=
        match wsAlpha rest with
        | some w => some (digitVal c1, w)
        | none => none
      match rest with
      | c2 :: rest2 =>
        if c2.isDigit then
          match wsAlpha rest2 with
          | some w => some (digitVal c1 * 10 + digitVal c2, w)
          | none => oneDigit
        else oneDigit
      | [] => none
    else none

/-- Leftmost search for pattern 2. -/
def p2Search : List Char → Option (Int × List Char)
  | [] => none
  | c :: rest =>
    match p2At (c :: rest) with
    | some r => some r
    | none => p2Search rest

/-- After `\s+`, capture `(\d{1,2})` (greedy, two digits preferred). -/
def wsDigits (l : List Char) : Option Int :=
  match l with
  | [] => none
  | c :: rest =>
    if c.isWhitespace then
      let rest2 := rest.dropWhile Char.isWhitespace
      match rest2 with
      | d1 :: r2 =>
        if d1.isDigit then
          match r2 with
          | d2 :: _ => if d2.isDigit then some (digitVal d1 * 10 + digitVal d2)
                       else some (digitVal d1)
          | [] => some (digitVal d1)
        else none
      | [] => none
    else none

/-- Try pattern 3, `([a-zA-Z]+)\s+(\d{1,2})`, anchored at the start of `l`.
The alpha run is maximal; no shorter run can be followed by whitespace, so
no backtracking is needed. -/
def p3At (l : List Char) : Option (List Char × Int) :=
  let w := l.takeWhile Char.isAlpha
  if w.isEmpty then none
  else
    match wsDigits (l.dropWhile Char.isAlpha) with
    | some n => some (w, n)
    | none => none

/-- Leftmost search for pattern 3. -/
def p3Search : List Char → Option (List Char × Int)
  | [] => none
  | c :: rest =>
    match p3At (c :: rest) with
    | some r => some r
    | none => p3Search rest

/-- Try the offset pattern `in (\d+) (day|days|week|weeks)` anchored at the
start of `l`; returns the number and whether the unit contains `week`. -/
def offsetAt (l : List Char) : Option (Int × Bool) :=
  match l with
  | 'i' :: 'n' :: ' ' :: rest =>
    let ds := rest.takeWhile Char.isDigit
    if ds.isEmpty then none
    else
      match rest.dropWhile Char.isDigit with
      | ' ' :: r3 =>
        if startsWithSeq r3 ['d', 'a', 'y'] then some (natOfDigits ds, false)
        else if startsWithSeq r3 ['w', 'e', 'e', 'k'] then some (natOfDigits ds, true)
        else none
      | _ => none
  | _ => none

/-- Leftmost search for the offset pattern. -/
def offsetSearch : List Char → Option (Int × Bool)
  | [] => none
  | c :: rest =>
    match offsetAt (c :: rest) with
    | some r => some r
    | none => offsetSearch rest

/-- First maximal run of decimal digits in `l` (`re.findall(r'\d+', s)[0]`). -/
def firstIntRun : List Char → Option Int
  | [] => none
  | c :: rest =>
    if c.isDigit then some (natOfDigits (c :: rest.takeWhile Char.isDigit))
    else firstIntRun rest

/-! ## DateResolver: `_parse_specific_date` and `calculate_trip_dates`
(usecases/create_plan_usecase_helper.py) -/

/-- The month-name table of `_parse_specific_date`. -/
def monthOfWord (w : List Char) : Option Int :=
  [ ("jan", 1), ("january", 1), ("feb", 2), ("february", 2),
    ("mar", 3), ("march", 3), ("apr", 4), ("april", 4), ("may", 5),
    ("jun", 6), ("june", 6), ("jul", 7), ("july", 7),
    ("aug", 8), ("august", 8), ("sep", 9), ("september", 9),
    ("oct", 10), ("october", 10), ("nov", 11), ("november", 11),
    ("dec", 12), ("december", 12) ].lookup (String.mk w)

/-- Shared body of the three pattern branches of `_parse_specific_date`:
build `datetime(year, month, day)` in the reference year; if it has already
passed, roll forward one year.  An invalid calendar date raises `ValueError`
in Python, which the code catches and ignores (`none` here, falling through
to the next pattern). -/
def resolveDayMonth (day m today : Int) : Option Int :=
  let y := yearOf today
  if 1 ≤ day ∧ day ≤ monthLen y m then
    let target := daysFromCivil y m day
    if target < today then
      if 1 ≤ day ∧ day ≤ monthLen (y + 1) m then some (daysFromCivil (y + 1) m day)
      else none
    else some target
  else none

/-- Embeds `_parse_specific_date(goal_lower, today)`: try the three regex patterns
in order; a pattern whose word is not a month name, or whose date is
invalid, falls through to the next pattern. -/
def parse_specific_date (goalLower : String) (today : Int) : Option Int :=
  let g := goalLower.toList
  let r1 :=
    match p1Search g with
    | some (d, w) =>
      match monthOfWord w with
      | some m => resolveDayMonth d m today
      | none => none
    | none => none
  match r1 with
  | some t => some t
  | none =>
    let r2 :=
      match p2Search g with
      | some (d, w) =>
        match monthOfWord w with
        | some m => resolveDayMonth d m today
        | none => none
      | none => none
    match r2 with
    | some t => some t
    | none =>
      match p3Search g with
      | some (w, d) =>
        match monthOfWord w with
        | some m => resolveDayMonth d m today
        | none => none
      | none => none

/-- The start-date computation of `calculate_trip_dates` (the code computes
`start_date` through the keyword chain, then the end date from it). -/
def tripStartDate (goal : String) (today : Int) : Int :=
  let g := pyLower goal
  match parse_specific_date g today with
  | some d => d
  | none =>
    if pyContains g "today" then today
    else if pyContains g "tomorrow" then today + 1
    else if pyContains g "day after tomorrow" then today + 2
    else if pyContains g "next week" then
      let dum := Int.fmod (7 - pyWeekday today) 7
      let dum := if dum = 0 then 7 else dum
      today + dum
    else if pyContains g "next weekend" then
      let w := pyWeekday today
      let dus := Int.fmod (5 - w) 7
      let dus := if dus ≤ 0 then (if w = 6 then 6 - w + 7 else 7 - w) else dus
      today + dus
    else if pyContains g "this weekend" then
      let w := pyWeekday today
      let dus := Int.fmod (5 - w) 7
      let dus := if dus = 0 ∧ w < 6 then dus else if dus ≤ 0 then 6 else dus
      today + dus
    else if pyContains g "next month" then
      let c := civilFromDays today
      let firstThis := daysFromCivil c.1 c.2.1 1
      let c2 := civilFromDays (firstThis + 32)
      let firstNext := daysFromCivil c2.1 c2.2.1 1
      firstNext + Int.fmod (5 - pyWeekday firstNext) 7
    else if pyContains g "in " then
      match offsetSearch g.toList with
      | some (n, isWeek) => today + (if isWeek then 7 * n else n)
      | none => today
    else today + 3

/-- Embeds `calculate_trip_dates(goal, duration, today)`:
`(start_date, start_date + timedelta(days=duration - 1))`. -/
def calculate_trip_dates (goal : String) (duration : Int) (today : Int) :
    Int × Int :=
  let s := tripStartDate goal today
  (s, s + (duration - 1))

/-! ## WeatherService (services/weather_service.py)

Numbers coming from the weather API (temperatures, wind, `pop`, rain
amounts) are modelled as exact rationals.  Python `round` is half-to-even. -/

/-- Python `round(x)` (ties to even), on exact rationals. -/
def roundHalfEven (x : ℚ) : Int :=
  let f := ⌊x⌋
  let r := x - (f : ℚ)
  if r < 1 / 2 then f
  else if 1 / 2 < r then f + 1
  else if f % 2 = 0 then f else f + 1

/-- Python `round(x, 1)`. -/
def pyRound1 (x : ℚ) : ℚ := (roundHalfEven (x * 10) : ℚ) / 10

/-- One timestamped point of the `forecast["list"]` feed.  `dt` is the Unix
timestamp; `rain` is the value of `item["rain"].get("3h", 0)` when the item
carries a `rain` object, `none` when it does not; `pop` is `item.get("pop", 0)`
(`none` when the key is absent). -/
structure FItem where
  dt : Int
  temp : ℚ
  condMain : String
  condDescription : String
  humidity : ℚ
  windSpeed : ℚ
  pop : Option ℚ
  rain : Option ℚ
deriving DecidableEq

/-- The `coord` object of the current-conditions response. -/
structure Coord where
  lat : ℚ
  lon : ℚ
deriving DecidableEq

/-- Current-conditions response (only the `coord` field is read by the
seasonal estimator, through `.get("coord", {}).get("lat", 0)`). -/
structure CurrData where
  coord : Option Coord
deriving DecidableEq

/-- The forecast response as seen by `_process_forecast_for_dates`:
`absent` is `None` or a falsy (empty) dict, `noList` is a truthy dict
without a `"list"` key (an error payload), `items l` is a dict with a
`"list"` of forecast points. -/
inductive ForecastPayload where
  | absent
  | noList
  | items (l : List FItem)
deriving DecidableEq

/-- Conversion `datetime.fromtimestamp(ts).date()` as a day number (timezone modelled
as UTC). -/
def tsToDay (ts : Int) : Int := Int.fdiv ts 86400

/-- Append an item under its date key, preserving first-seen key order
(Python dict insertion order). -/
def addToGroup : List (Int × List FItem) → Int → FItem → List (Int × List FItem)
  | [], d, it => [(d, [it])]
  | (k, v) :: rest, d, it =>
    if k = d then (k, v ++ [it]) :: rest else (k, v) :: addToGroup rest d it

/-- Builds `date_forecasts`: group the forecast points by calendar day. -/
def groupByDate (l : List FItem) : List (Int × List FItem) :=
  l.foldl (fun acc it => addToGroup acc (tsToDay it.dt) it) []

/-- Association lookup (`current_date in date_forecasts` /
`date_forecasts[current_date]`). -/
def assocFind : List (Int × List FItem) → Int → Option (List FItem)
  | [], _ => none
  | (k, v) :: rest, d => if k = d then some v else assocFind rest d

/-- Minimum of a list of rationals, Python `min(seq)` (0 on `[]`, which the
code never reaches: groups are nonempty). -/
def listMinQ : List ℚ → ℚ
  | [] => 0
  | h :: t => t.foldl min h

/-- Maximum of a list of rationals, Python `max(seq)`. -/
def listMaxQ : List ℚ → ℚ
  | [] => 0
  | h :: t => t.foldl max h

/-- Sum of a list of rationals, Python `sum(seq)`. -/
def listSumQ (l : List ℚ) : ℚ := l.foldl (· + ·) 0

/-- Keys of a Python dict built by insertion, in first-seen order. -/
def dictKeys : List String → List String
  | [] => []
  | c :: rest => c :: (dictKeys rest).filter (fun x => x != c)

/-- Fold of Python `max(keys, key=score)`: keep the current best unless the
candidate's score is strictly greater (so ties keep the earlier key). -/
def firstMaxAux (score : String → Nat) : String → List String → String
  | best, [] => best
  | best, c :: rest =>
    firstMaxAux score (if score best < score c then c else best) rest

/-- Embeds `max(condition_counts, key=condition_counts.get)`: the first-seen key of
maximal count. -/
def pyMaxByCount (conds : List String) (keys : List String) : String :=
  match keys with
  | [] => ""
  | k :: rest => firstMaxAux (fun c => conds.count c) k rest

/-- Embeds `_generate_weather_advisory(condition, min_temp, max_temp,
rain_probability)`.  The emoji glyph prefixes of the source strings are
elided (ASCII text only); the textual content and the threshold logic are
kept. -/
def generate_weather_advisory (condition : String) (minTemp maxTemp rainProb : ℚ) :
    String :=
  let tempAdv : List String :=
    if maxTemp > 40 then ["EXTREME HEAT: Plan indoor activities during midday (11 AM - 4 PM)"]
    else if maxTemp > 35 then ["Very hot day: Prefer early morning and evening outdoor activities"]
    else if maxTemp < 5 then ["Very cold: Layer clothing and prefer heated indoor venues"]
    else if minTemp < 0 then ["Freezing temperatures: Check for ice and dress warmly"]
    else []
  let rainAdv : List String :=
    if rainProb > 70 then ["High rain probability: Prioritize indoor activities or covered venues"]
    else if rainProb > 40 then ["Possible rain: Have indoor backup plans ready"]
    else []
  let condLower := pyLower condition
  let condAdv : List String :=
    if condLower = "thunderstorm" ∨ condLower = "storm" then
      ["STORM WARNING: Stay indoors during storm periods"]
    else if condLower = "snow" then
      ["Snow expected: Check travel conditions and dress warmly"]
    else if condLower = "fog" then
      ["Foggy conditions: Allow extra travel time and check visibility"]
    else []
  let advisories := tempAdv ++ rainAdv ++ condAdv
  if advisories.isEmpty then
    if 15 ≤ maxTemp ∧ maxTemp ≤ 30 ∧ rainProb < 30 then
      "Great weather for outdoor activities!"
    else "Pleasant weather for most activities"
  else String.intercalate " | " advisories

/-- The per-day aggregate computed from real forecast points
(weather_service.py lines 110-145). -/
structure RealAgg where
  minTemp : ℚ
  maxTemp : ℚ
  avgTemp : ℚ
  condition : String
  description : String
  rainProbability : Int
  totalRainMm : ℚ
  humidity : ℚ
  windSpeed : ℚ
  weatherAdvisory : String
deriving DecidableEq

/-- The `(rain_probability, total_rain)` accumulation loop: only items that
carry a `rain` object contribute, both to the running maximum of
`pop * 100` and to the rain total. -/
def rainFoldStep (acc : ℚ × ℚ) (it : FItem) : ℚ × ℚ :=
  match it.rain with
  | some amt => (max acc.1 ((it.pop.getD 0) * 100), acc.2 + amt)
  | none => acc

/-- Aggregate one day's forecast points (the body of the
`forecast_available and current_date in date_forecasts` branch). -/
def aggregateForecastDay (pts : List FItem) : RealAgg :=
  let temps := pts.map FItem.temp
  let conds := pts.map FItem.condMain
  let descs := pts.map FItem.condDescription
  let dominant := pyMaxByCount conds (dictKeys conds)
  let rt := pts.foldl rainFoldStep ((0 : ℚ), (0 : ℚ))
  { minTemp := pyRound1 (listMinQ temps)
    maxTemp := pyRound1 (listMaxQ temps)
    avgTemp := pyRound1 (listSumQ temps / (temps.length : ℚ))
    condition := dominant
    description := descs.headD ""
    rainProbability := roundHalfEven rt.1
    totalRainMm := pyRound1 rt.2
    humidity := (pts.map FItem.humidity).headD 0
    windSpeed := (pts.map FItem.windSpeed).headD 0
    weatherAdvisory :=
      generate_weather_advisory dominant (listMinQ temps) (listMaxQ temps) rt.1 }

/-- A seasonal pattern row of `_get_seasonal_patterns`. -/
structure SeasonPattern where
  baseTemp : Int
  tempRange : Int
  rainProb : Int
  condition : String
  description : String
  advisory : String
deriving DecidableEq

/-- The result row of `_get_seasonal_patterns`. -/
structure SeasonalData where
  season : String
  minTemp : Int
  maxTemp : Int
  avgTemp : Int
  condition : String
  description : String
  rainProbability : Int
  humidity : Int
  advisory : String
deriving DecidableEq

/-- Season of a month (1..12) by hemisphere. -/
def seasonOfMonth (month : Int) (isNorthern : Bool) : String :=
  if isNorthern then
    if month = 12 ∨ month = 1 ∨ month = 2 then "Winter"
    else if month = 3 ∨ month = 4 ∨ month = 5 then "Spring"
    else if month = 6 ∨ month = 7 ∨ month = 8 then "Summer"
    else "Autumn"
  else
    if month = 12 ∨ month = 1 ∨ month = 2 then "Summer"
    else if month = 3 ∨ month = 4 ∨ month = 5 then "Autumn"
    else if month = 6 ∨ month = 7 ∨ month = 8 then "Winter"
    else "Spring"

/-- Embeds `_get_seasonal_patterns(month, is_northern, latitude)`.  The emoji
glyph prefixes of the advisory strings are elided. -/
def get_seasonal_patterns (month : Int) (isNorthern : Bool) (latitude : ℚ) :
    SeasonalData :=
  let season := seasonOfMonth month isNorthern
  let tm : Int := if |latitude| > 60 then -15 else if |latitude| > 40 then 0
                  else if |latitude| > 23 then 10 else 20
  let humidityBase : Int := if |latitude| > 60 then 70 else if |latitude| > 40 then 60
                            else if |latitude| > 23 then 65 else 75
  let p : SeasonPattern :=
    if season = "Winter" then
      { baseTemp := 5 + tm, tempRange := 8, rainProb := 40, condition := "Clouds",
        description := "overcast clouds",
        advisory := "Winter season: Pack warm clothes and check for seasonal weather patterns" }
    else if season = "Spring" then
      { baseTemp := 15 + tm, tempRange := 12, rainProb := 50, condition := "Rain",
        description := "light rain",
        advisory := "Spring season: Variable weather, pack layers and rain protection" }
    else if season = "Summer" then
      { baseTemp := 25 + tm, tempRange := 10, rainProb := 30, condition := "Clear",
        description := "clear sky",
        advisory := "Summer season: Expect warm weather, pack sun protection" }
    else
      { baseTemp := 18 + tm, tempRange := 10, rainProb := 45, condition := "Clouds",
        description := "scattered clouds",
        advisory := "Autumn season: Cool and variable weather, pack layers" }
  { season := season
    minTemp := p.baseTemp - Int.fdiv p.tempRange 2
    maxTemp := p.baseTemp + Int.fdiv p.tempRange 2
    avgTemp := p.baseTemp
    condition := p.condition
    description := p.description
    rainProbability := p.rainProb
    humidity := humidityBase
    advisory := p.advisory }

/-- Embeds `_generate_seasonal_weather_estimate(date, current_data)`: latitude read
through `.get("coord", {}).get("lat", 0)`, hemisphere from its sign. -/
def generate_seasonal_weather_estimate (day : Int) (currentData : Option CurrData) :
    SeasonalData :=
  let lat : ℚ :=
    match currentData with
    | none => 0
    | some cd => match cd.coord with
                 | none => 0
                 | some co => co.lat
  get_seasonal_patterns (monthOf day) (lat ≥ 0) lat

/-- One `day_data` dict appended to `daily_forecasts`.  Keys that only one
branch writes (`total_rain_mm`, `wind_speed` for the forecast branch,
`season` for the seasonal branch) are `Option` fields. -/
structure WDay where
  date : String
  dayName : String
  weatherAvailable : Bool
  minTemp : ℚ
  maxTemp : ℚ
  avgTemp : ℚ
  condition : String
  description : String
  rainProbability : Int
  totalRainMm : Option ℚ
  humidity : ℚ
  windSpeed : Option ℚ
  weatherAdvisory : String
  dataSource : String
  season : Option String
deriving DecidableEq

/-- Builds `day_data` for one trip day: real forecast aggregate when the forecast
is available and the day has grouped points, else a seasonal estimate. -/
def mkTripDay (fa : Bool) (groups : List (Int × List FItem))
    (currentData : Option CurrData) (cur : Int) : WDay :=
  let avail := fa && (assocFind groups cur).isSome
  match fa, assocFind groups cur with
  | true, some pts =>
    let a := aggregateForecastDay pts
    { date := fmtDate cur, dayName := pyDayName cur, weatherAvailable := avail,
      minTemp := a.minTemp, maxTemp := a.maxTemp, avgTemp := a.avgTemp,
      condition := a.condition, description := a.description,
      rainProbability := a.rainProbability, totalRainMm := some a.totalRainMm,
      humidity := a.humidity, windSpeed := some a.windSpeed,
      weatherAdvisory := a.weatherAdvisory, dataSource := "5-day forecast",
      season := none }
  | _, _ =>
    let s := generate_seasonal_weather_estimate cur currentData
    { date := fmtDate cur, dayName := pyDayName cur, weatherAvailable := avail,
      minTemp := (s.minTemp : ℚ), maxTemp := (s.maxTemp : ℚ),
      avgTemp := (s.avgTemp : ℚ), condition := s.condition,
      description := s.description, rainProbability := s.rainProbability,
      totalRainMm := none, humidity := (s.humidity : ℚ), windSpeed := none,
      weatherAdvisory := s.advisory,
      dataSource := "Seasonal estimate (forecast unavailable)",
      season := some s.season }

/-- The `date_forecasts` grouping step: only performed when the forecast is
available and the payload carries a `"list"`. -/
def forecastGroups (fa : Bool) (fd : ForecastPayload) : List (Int × List FItem) :=
  if fa then
    match fd with
    | ForecastPayload.items l => groupByDate l
    | _ => []
  else []

/-- Embeds `_process_forecast_for_dates(forecast_data, start_date, end_date,
forecast_available, current_data)`.  Returns `[]` immediately when the
forecast was supposed to be available but the payload has no `"list"` key;
otherwise emits one `day_data` per calendar day from start to end. -/
def process_forecast_for_dates (forecastData : ForecastPayload)
    (startD endD : Int) (forecastAvailable : Bool)
    (currentData : Option CurrData) : List WDay :=
  if forecastAvailable ∧ forecastData = ForecastPayload.noList then []
  else
    (List.range (endD + 1 - startD).toNat).map
      (fun (i : Nat) =>
        mkTripDay forecastAvailable (forecastGroups forecastAvailable forecastData)
          currentData (startD + (i : Int)))

/-- The dict returned by `get_weather_for_trip_dates` (happy path; the
`except` branch, which returns an `{"error": ...}` dict with no
`daily_forecasts`, models a raised network error and is outside this
embedding). -/
structure WeatherResult where
  dailyForecasts : List WDay
  city : String
  tripStart : String
  tripEnd : String
  tripDuration : Int
  daysUntilTrip : Int
  forecastAvailable : Bool
  weatherSource : String
deriving DecidableEq

/-- Embeds `get_weather_for_trip_dates(city, start_date, end_date)` with the two
provider responses passed explicitly (`current` from `/weather`,
`forecastResp` from `/forecast`; the latter is only fetched when the trip is
within the 5-day window, hence `absent` otherwise). -/
def get_weather_for_trip_dates (city : String) (todayD startD endD : Int)
    (currentData : Option CurrData) (forecastResp : ForecastPayload) :
    WeatherResult :=
  let daysUntilTrip := startD - todayD
  let duration := endD - startD + 1
  let fa : Bool := daysUntilTrip ≤ 5
  let fd := if fa then forecastResp else ForecastPayload.absent
  { dailyForecasts := process_forecast_for_dates fd startD endD fa currentData
    city := city
    tripStart := fmtDate startD
    tripEnd := fmtDate endD
    tripDuration := duration
    daysUntilTrip := daysUntilTrip
    forecastAvailable := fa
    weatherSource :=
      if fa then "OpenWeatherMap 5-day forecast"
      else "Seasonal estimates based on location" }

/-! ## PlanAssembler: `extract_day_weather_info` and
`enrich_plan_with_external_data` (usecases/create_plan_usecase_helper.py) -/

/-- The `external_info["weather"]` dict as read by
`extract_day_weather_info`, through `.get` with defaults.  `none` for the
whole dict models an absent or falsy `weather` entry.  The `{"error": ...}`
dict produced by a failed weather call is a value with no
`daily_forecasts` / `weather_source` / `forecast_available` keys
(`[]` / `none` / `none`). -/
structure WeatherData where
  dailyForecasts : List WDay
  weatherSource : Option String
  forecastAvailable : Option Bool
deriving DecidableEq

/-- The projection of a matched `day_weather` dict built by
`extract_day_weather_info` (every key of the timeline entry except
`total_rain_mm`). -/
structure ProjWDay where
  date : String
  dayName : String
  minTemp : ℚ
  maxTemp : ℚ
  avgTemp : ℚ
  condition : String
  description : String
  rainProbability : Int
  humidity : ℚ
  windSpeed : Option ℚ
  weatherAdvisory : String
  dataSource : String
  season : Option String
  weatherAvailable : Bool
deriving DecidableEq

/-- Build the projected `weather_info` dict from a timeline entry. -/
def projectWDay (d : WDay) : ProjWDay :=
  { date := d.date, dayName := d.dayName, minTemp := d.minTemp,
    maxTemp := d.maxTemp, avgTemp := d.avgTemp, condition := d.condition,
    description := d.description, rainProbability := d.rainProbability,
    humidity := d.humidity, windSpeed := d.windSpeed,
    weatherAdvisory := d.weatherAdvisory, dataSource := d.dataSource,
    season := d.season, weatherAvailable := d.weatherAvailable }

/-- An element of the `weather_info` list attached to a day: either the
projected matching timeline entry, or the two-key fallback dict
`{"weather_source": ..., "forecast_available": ...}`. -/
inductive WInfoEntry where
  | full (p : ProjWDay)
  | basic (weatherSource : String) (forecastAvailable : Bool)
deriving DecidableEq

/-- Embeds `extract_day_weather_info(external_info, day_date)`: `[]` when the
weather dict or the day's date is falsy (absent or empty string); else the
first timeline entry whose date string-matches, projected, as a one-element
list; else the one-element fallback. -/
def extract_day_weather_info (weather : Option WeatherData)
    (dayDate : Option String) : List WInfoEntry :=
  match weather, dayDate with
  | none, _ => []
  | some _, none => []
  | some wd, some dd =>
    if dd = "" then []
    else
      match wd.dailyForecasts.find? (fun d => d.date == dd) with
      | some d => [WInfoEntry.full (projectWDay d)]
      | none =>
        [WInfoEntry.basic (wd.weatherSource.getD "Unknown")
          (wd.forecastAvailable.getD false)]

/-- The `TaskStatus` enum (models/domain/entities.py). -/
inductive TaskStatus where
  | pending
  | in_progress
  | completed
deriving DecidableEq

/-- Conversion `TaskStatus(s)`: the enum constructor raises `ValueError` on any string
that is not one of the three member values. -/
def taskStatusOfString (s : String) : Except String TaskStatus :=
  if s = "pending" then Except.ok TaskStatus.pending
  else if s = "in_progress" then Except.ok TaskStatus.in_progress
  else if s = "completed" then Except.ok TaskStatus.completed
  else Except.error s

/-- A raw task dict from the model's plan JSON.  Fields are
string-or-absent, matching the shapes the prompt requests; `none` models a
missing key. -/
structure RawTask where
  title : Option String
  description : Option String
  estimatedDuration : Option String
  status : Option String
deriving DecidableEq

/-- A raw day dict from the model's plan JSON. -/
structure RawDay where
  dayNumber : Option Int
  date : Option String
  tasks : List RawTask
  summary : Option String
deriving DecidableEq

/-- The raw plan dict passed to `enrich_plan_with_external_data`. -/
structure RawPlan where
  days : List RawDay
  description : Option String
  totalDuration : Option String
deriving DecidableEq

/-- Assembled `Task` domain entity.  `ObjectId()` generation is modelled by
a deterministic fresh counter (only uniqueness matters). -/
structure DomainTask where
  id : Nat
  title : String
  description : String
  status : TaskStatus
  estimatedDuration : String
deriving DecidableEq

/-- Assembled `Day` domain entity. -/
structure DomainDay where
  dayNumber : Int
  date : Option String
  tasks : List DomainTask
  summary : String
  weatherInfo : List WInfoEntry
deriving DecidableEq

/-- Assembled `Plan` domain entity (fields the assembler sets). -/
structure DomainPlan where
  id : Nat
  goal : String
  description : String
  days : List DomainDay
  totalDuration : String
deriving DecidableEq

/-- The inner task loop of `enrich_plan_with_external_data`: build a `Task`
per raw task; `TaskStatus(task_data.get("status", "pending"))` raises on an
unrecognized status, which aborts the whole assembly. -/
def enrichTasks (counter : Nat) : List RawTask → Except String (List DomainTask)
  | [] => Except.ok []
  | t :: rest => do
    let st ← taskStatusOfString (t.status.getD "pending")
    let rest2 ← enrichTasks (counter + 1) rest
    Except.ok ({ id := counter, title := t.title.getD "",
                 description := t.description.getD "",
                 status := st,
                 estimatedDuration := t.estimatedDuration.getD "" } :: rest2)

/-- The day loop of `enrich_plan_with_external_data`. -/
def enrichDays (weather : Option WeatherData) (counter : Nat) :
    List RawDay → Except String (List DomainDay)
  | [] => Except.ok []
  | d :: rest => do
    let tasks ← enrichTasks counter d.tasks
    let days ← enrichDays weather (counter + d.tasks.length) rest
    Except.ok ({ dayNumber := d.dayNumber.getD 1, date := d.date,
                 tasks := tasks, summary := d.summary.getD "",
                 weatherInfo := extract_day_weather_info weather d.date } :: days)

/-- Embeds `enrich_plan_with_external_data(plan_data, external_info, goal)`:
convert the raw plan into the domain `Plan`.  `weather` is
`external_info.get("weather")`. -/
def enrich_plan_with_external_data (planData : RawPlan)
    (weather : Option WeatherData) (goal : String) : Except String DomainPlan := do
  let days ← enrichDays weather 0 planData.days
  Except.ok { id := 0, goal := goal,
              description := planData.description.getD "",
              days := days,
              totalDuration := planData.totalDuration.getD "1 day" }

/-! ## AIService: `_process_extracted_info` / `extract_goal_information`
(services/ai_service.py) -/

/-- A JSON value as produced by `json.loads` (Python maps JSON numbers to
`int` or `float`; `jnum` is the float case). -/
inductive JVal where
  | jnull
  | jbool (b : Bool)
  | jint (n : Int)
  | jnum (q : ℚ)
  | jstr (s : String)
  | jarr (l : List JVal)
  | jobj (fields : List (String × JVal))

/-- Python truthiness of a JSON value (`None`, `False`, `0`, `""`, `[]`,
`{}` are falsy). -/
def truthy : JVal → Bool
  | JVal.jnull => false
  | JVal.jbool b => b
  | JVal.jint n => n != 0
  | JVal.jnum q => q != 0
  | JVal.jstr s => !s.isEmpty
  | JVal.jarr l => !l.isEmpty
  | JVal.jobj f => !f.isEmpty

/-- Lookup `d.get(key)` on a JSON object's fields. -/
def getField (fields : List (String × JVal)) (key : String) : Option JVal :=
  fields.lookup key

/-- Python `value or default` applied to an optional dict entry. -/
def orDefault (o : Option JVal) (d : JVal) : JVal :=
  match o with
  | some v => if truthy v then v else d
  | none => d

/-- The duration normalization of `_process_extracted_info`: a string is
repaired to its first embedded integer (3 when it has none); an `int` is
kept (Python `bool` is an `int` subtype: `True` is 1, `False` is 0); any
other type falls back to 3; the result is clamped with `max(1, _)`. -/
def normalizeDuration (v : JVal) : Int :=
  let dv : Int :=
    match v with
    | JVal.jstr s =>
      match firstIntRun s.toList with
      | some n => n
      | none => 3
    | JVal.jint n => n
    | JVal.jbool b => if b then 1 else 0
    | _ => 3
  max 1 dv

/-- The dict returned by `_process_extracted_info` (values other than
`duration` are passed through the `or`-defaulting unchanged, so they keep
their JSON type). -/
structure GoalInfo where
  destination : JVal
  duration : Int
  activities : JVal
  preferences : JVal
  budgetConsiderations : JVal
  timeOfYear : JVal
  timingKeywords : JVal

/-- Embeds `_process_extracted_info(extracted)`. -/
def process_extracted_info (fields : List (String × JVal)) : GoalInfo :=
  { destination := orDefault (getField fields "destination") (JVal.jstr "")
    duration := normalizeDuration ((getField fields "duration").getD (JVal.jint 3))
    activities := orDefault (getField fields "activities") (JVal.jarr [])
    preferences := orDefault (getField fields "preferences") (JVal.jarr [])
    budgetConsiderations :=
      orDefault (getField fields "budget_considerations") (JVal.jstr "")
    timeOfYear := orDefault (getField fields "time_of_year") (JVal.jstr "")
    timingKeywords := orDefault (getField fields "timing_keywords") (JVal.jstr "") }

/-- Embeds `_get_default_goal_info()`. -/
def default_goal_info : GoalInfo :=
  { destination := JVal.jstr "", duration := 3, activities := JVal.jarr [],
    preferences := JVal.jarr [], budgetConsiderations := JVal.jstr "",
    timeOfYear := JVal.jstr "", timingKeywords := JVal.jstr "" }

/-- Outcome of the Gemini call plus JSON parsing inside
`extract_goal_information`'s `try` block: the model raised, the response
text was empty, `json.loads` failed on the cleaned text, or it produced a
JSON value. -/
inductive AIOutcome where
  | err
  | empty
  | unparsable
  | parsed (v : JVal)

/-- Embeds `extract_goal_information(goal)` as a function of the call outcome.
Every failure path (exception, empty text, bad JSON, or a parsed non-object,
whose attribute access raises inside the same `try`) returns the default
info. -/
def extract_goal_information : AIOutcome → GoalInfo
  | AIOutcome.err => default_goal_info
  | AIOutcome.empty => default_goal_info
  | AIOutcome.unparsable => default_goal_info
  | AIOutcome.parsed v =>
    match v with
    | JVal.jobj fields => process_extracted_info fields
    | _ => default_goal_info

/-! ## Error handler: the `handle_exceptions` decorator
(utils/error_handler.py) -/

/-- An exception reaching the decorator's handlers. -/
inductive RaisedExc where
  | httpExc (status : Int) (detail : String)
  | planNotFound (msg : String)
  | externalService (msg : String)
  | validation (msg : String)
  | generic (msg : String)

/-- The HTTP response the decorator turns an exception into: status code,
the structured error type (for the 429 payloads), and the parsed
`retry_after` hint if any. -/
structure ErrResponse where
  status : Int
  errorType : Option String
  retryAfter : Option Int
deriving DecidableEq

/-- Leftmost match of `retry in (\d+(?:\.\d+)?)s` anchored at the start:
`int(float(group))` is the integer part, i.e. the leading digits. -/
def retryAt (l : List Char) : Option Int :=
  match l with
  | 'r' :: 'e' :: 't' :: 'r' :: 'y' :: ' ' :: 'i' :: 'n' :: ' ' :: rest =>
    let ds := rest.takeWhile Char.isDigit
    if ds.isEmpty then none
    else
      match rest.dropWhile Char.isDigit with
      | 's' :: _ => some (natOfDigits ds)
      | '.' :: r3 =>
        let fs := r3.takeWhile Char.isDigit
        if fs.isEmpty then none
        else
          match r3.dropWhile Char.isDigit with
          | 's' :: _ => some (natOfDigits ds)
          | _ => none
      | _ => none
  | _ => none

/-- Leftmost search for the retry-delay pattern. -/
def retrySearch : List Char → Option Int
  | [] => none
  | c :: rest =>
    match retryAt (c :: rest) with
    | some r => some r
    | none => retrySearch rest

/-- The exception translation of `handle_exceptions`: typed exceptions map
to fixed statuses; a generic exception is classified as quota-exceeded
(needs both a `429` and a lowercase `quota` marker, with the retry delay
parsed from the raw message), rate-limited (lowercase `rate limit` marker),
or a generic 500. -/
def handle_exceptions : RaisedExc → ErrResponse
  | RaisedExc.httpExc st _ => { status := st, errorType := none, retryAfter := none }
  | RaisedExc.planNotFound _ => { status := 404, errorType := none, retryAfter := none }
  | RaisedExc.externalService _ => { status := 503, errorType := none, retryAfter := none }
  | RaisedExc.validation _ => { status := 422, errorType := none, retryAfter := none }
  | RaisedExc.generic msg =>
    if pyContains msg "429" ∧ pyContains (pyLower msg) "quota" then
      { status := 429, errorType := some "QUOTA_EXCEEDED",
        retryAfter := retrySearch msg.toList }
    else if pyContains (pyLower msg) "rate limit" then
      { status := 429, errorType := some "RATE_LIMITED", retryAfter := none }
    else { status := 500, errorType := none, retryAfter := none }

/-! ## Claim-side helper definitions and concrete fixtures -/

/-- A sample one-entry weather timeline dict (used by the C8 witness and
counterexample). -/
def sampleWeatherData : WeatherData :=
  { dailyForecasts :=
      [ { date := "2024-06-01", dayName := "Saturday", weatherAvailable := true,
          minTemp := 20, maxTemp := 25, avgTemp := 22, condition := "Clear",
          description := "clear sky", rainProbability := 10,
          totalRainMm := some 0, humidity := 50, windSpeed := some 3,
          weatherAdvisory := "Great weather for outdoor activities!",
          dataSource := "5-day forecast", season := none } ],
    weatherSource := some "OpenWeatherMap 5-day forecast",
    forecastAvailable := some true }

/-- A raw task's status field is absent or one of the three recognized
enum values. -/
def statusOk (s : Option String) : Prop :=
  s = none ∨ s = some "pending" ∨ s = some "in_progress" ∨ s = some "completed"

instance (s : Option String) : Decidable (statusOk s) := by
  unfold statusOk; infer_instance

/-- Field-by-field relation between a raw task and its assembled task. -/
def taskMatches (rt : RawTask) (t : DomainTask) : Prop :=
  t.title = rt.title.getD ""
  ∧ t.description = rt.description.getD ""
  ∧ t.estimatedDuration = rt.estimatedDuration.getD ""
  ∧ taskStatusOfString (rt.status.getD "pending") = Except.ok t.status

/-- Field-by-field relation between a raw day and its assembled day. -/
def dayMatches (w : Option WeatherData) (rd : RawDay) (d : DomainDay) : Prop :=
  d.dayNumber = rd.dayNumber.getD 1
  ∧ d.date = rd.date
  ∧ d.summary = rd.summary.getD ""
  ∧ d.weatherInfo = extract_day_weather_info w rd.date
  ∧ List.Forall₂ taskMatches rd.tasks d.tasks

/-- The raw plan used by the C2 witness. -/
def statusDefaultPlan : RawPlan :=
  { days := [ { dayNumber := some 1, date := some "2024-06-01",
                tasks := [ { title := some "Arrive", description := some "fly in",
                             estimatedDuration := some "2 hours", status := none } ],
                summary := some "day one" } ],
    description := some "desc", totalDuration := some "1 days" }

/-- The raw plan used by the C2 counterexample: one task whose status is
the unrecognized value `"done"`. -/
def unrecognizedStatusPlan : RawPlan :=
  { days := [ { dayNumber := some 1, date := some "2024-06-01",
                tasks := [ { title := some "Arrive", description := none,
                             estimatedDuration := none, status := some "done" } ],
                summary := none } ],
    description := none, totalDuration := none }

/-- The raw plan used by the C7 witness and counterexample: one task with
a title but no description. -/
def titledTaskPlan : RawPlan :=
  { days := [ { dayNumber := some 1, date := some "2024-06-01",
                tasks := [ { title := some "Visit the fort", description := none,
                             estimatedDuration := none, status := some "pending" } ],
                summary := none } ],
    description := none, totalDuration := none }

/-- Whether a JSON value is a list (formalizing the claim's "always
lists"). -/
def isJArr : JVal → Bool
  | JVal.jarr _ => true
  | _ => false

/-- Maximum of a list of naturals (0 on `[]`). -/
def maxNat : List Nat → Nat
  | [] => 0
  | h :: t => max h (maxNat t)

/-- Maximum of a list of rationals, 0 on `[]` (the code's running maximum
starts at 0). -/
def maxQ0 : List ℚ → ℚ
  | [] => 0
  | h :: t => max h (maxQ0 t)

/-- A forecast point without a `rain` field but with a high `pop` (used by
the C5 witness and counterexample). -/
def rainlessPoint : FItem :=
  { dt := 8640000, temp := 20, condMain := "Clear", condDescription := "clear sky",
    humidity := 50, windSpeed := 3, pop := some (9 / 10), rain := none }

/-- A forecast point with a `rain` field and a low `pop`. -/
def rainyPoint : FItem :=
  { dt := 8640300, temp := 22, condMain := "Clouds", condDescription := "few clouds",
    humidity := 55, windSpeed := 4, pop := some (1 / 10), rain := some 1 }

/-! ## Substring lemmas -/

theorem startsWithSeq_trans : ∀ (h n2 n1 : List Char),
    startsWithSeq n2 n1 = true → startsWithSeq h n2 = true →
    startsWithSeq h n1 = true := by
  intro h n2 n1
  induction n1 generalizing n2 h with
  | nil => intro _ _; cases h <;> rfl
  | cons a t1 ih =>
    intro h21 hh2
    cases n2 with
    | nil => simp [startsWithSeq] at h21
    | cons b t2 =>
      cases h with
      | nil => simp [startsWithSeq] at hh2
      | cons c t =>
        simp only [startsWithSeq, Bool.and_eq_true, beq_iff_eq] at h21 hh2 ⊢
        exact ⟨hh2.1.trans h21.1, ih t t2 h21.2 hh2.2⟩

theorem occursIn_nil_needle : ∀ (h : List Char), occursIn h [] = true := by
  intro h
  cases h with
  | nil => rfl
  | cons c t => simp [occursIn, startsWithSeq]

theorem occursIn_of_startsWithSeq : ∀ (h n : List Char),
    startsWithSeq h n = true → occursIn h n = true := by
  intro h n hs
  cases h with
  | nil => cases n with
    | nil => rfl
    | cons b t => simp [startsWithSeq] at hs
  | cons c t => simp [occursIn, hs]

theorem startsWithSeq_then_occursIn : ∀ (h n2 n1 : List Char),
    startsWithSeq h n2 = true → occursIn n2 n1 = true → occursIn h n1 = true := by
  intro h n2
  induction n2 generalizing h with
  | nil =>
    intro n1 _ ho
    cases n1 with
    | nil => exact occursIn_nil_needle h
    | cons a t1 => simp [occursIn] at ho
  | cons b t2 ih =>
    intro n1 hs ho
    simp only [occursIn, Bool.or_eq_true] at ho
    cases ho with
    | inl hl => exact occursIn_of_startsWithSeq h n1 (startsWithSeq_trans h (b :: t2) n1 hl hs)
    | inr hr =>
      cases h with
      | nil => simp [startsWithSeq] at hs
      | cons c t =>
        simp only [startsWithSeq, Bool.and_eq_true] at hs
        simp only [occursIn, Bool.or_eq_true]
        exact Or.inr (ih t n1 hs.2 hr)

/-- Transitivity of substring occurrence: if `n2` occurs in `h` and `n1`
occurs in `n2` then `n1` occurs in `h`. -/
theorem occursIn_trans : ∀ (h n2 n1 : List Char),
    occursIn h n2 = true → occursIn n2 n1 = true → occursIn h n1 = true := by
  intro h
  induction h with
  | nil =>
    intro n2 n1 h2 h1
    cases n2 with
    | nil => exact h1
    | cons b t2 => simp [occursIn] at h2
  | cons c t ih =>
    intro n2 n1 h2 h1
    simp only [occursIn, Bool.or_eq_true] at h2
    cases h2 with
    | inl hl => exact startsWithSeq_then_occursIn (c :: t) n2 n1 hl h1
    | inr hr =>
      simp only [occursIn, Bool.or_eq_true]
      exact Or.inr (ih n2 n1 hr h1)

/-! ## Claim C3 -/

/-- C3: for every goal text, duration `d ≥ 1` and reference instant, date
resolution is a total deterministic function (it is a Lean function of its
inputs) and the returned pair satisfies `endDate = startDate + (d - 1)`
days.  (The `ValueError`s possible inside `_parse_specific_date` are caught
by the code itself; they are the `none` branches of `resolveDayMonth`.) -/
theorem calculate_trip_dates_end_eq (goal : String) (d today : Int)
    (_hd : 1 ≤ d) :
    (calculate_trip_dates goal d today).2
      = (calculate_trip_dates goal d today).1 + (d - 1) := rfl

/-- Witness for C3 at a concrete input. -/
theorem calculate_trip_dates_end_eq_witness :
    1 ≤ (2 : Int)
    ∧ (calculate_trip_dates "weekend trip to goa" 2 19876).2
        = (calculate_trip_dates "weekend trip to goa" 2 19876).1 + (2 - 1) :=
  ⟨by decide, calculate_trip_dates_end_eq "weekend trip to goa" 2 19876 (by decide)⟩

/-! ## Claim C6 -/

/-- C6 (amended): when no specific date parses and no relative keyword
occurs, the code starts `today + 3` whenever the text does not contain the
substring `"in "`; when it contains `"in "` but the numeric offset pattern
does not match, the start is `today` itself.  Trip-indicating vocabulary
plays no role and no weekend-start day is selected. -/
theorem default_start_date_rule (goal : String) (d today : Int)
    (h1 : parse_specific_date (pyLower goal) today = none)
    (h2 : pyContains (pyLower goal) "today" = false)
    (h3 : pyContains (pyLower goal) "tomorrow" = false)
    (h4 : pyContains (pyLower goal) "day after tomorrow" = false)
    (h5 : pyContains (pyLower goal) "next week" = false)
    (h6 : pyContains (pyLower goal) "next weekend" = false)
    (h7 : pyContains (pyLower goal) "this weekend" = false)
    (h8 : pyContains (pyLower goal) "next month" = false) :
    (pyContains (pyLower goal) "in " = false →
      (calculate_trip_dates goal d today).1 = today + 3)
    ∧ (pyContains (pyLower goal) "in " = true →
        offsetSearch (pyLower goal).toList = none →
      (calculate_trip_dates goal d today).1 = today) := by
  constructor
  · intro h9
    simp [calculate_trip_dates, tripStartDate, h1, h2, h3, h4, h5, h6, h7, h8, h9]
  · intro h9 h10
    have h10' : offsetSearch (pyLower goal).data = none := h10
    simp [calculate_trip_dates, tripStartDate, h1, h2, h3, h4, h5, h6, h7, h8, h9, h10']

/-- Witness for C6 (amended) at a concrete input. -/
theorem default_start_date_rule_witness :
    (parse_specific_date (pyLower "buy groceries") 19877 = none
     ∧ pyContains (pyLower "buy groceries") "today" = false
     ∧ pyContains (pyLower "buy groceries") "next week" = false)
    ∧ (pyContains (pyLower "buy groceries") "in " = false →
        (calculate_trip_dates "buy groceries" 2 19877).1 = 19877 + 3)
    ∧ (pyContains (pyLower "buy groceries") "in " = true →
        offsetSearch (pyLower "buy groceries").toList = none →
        (calculate_trip_dates "buy groceries" 2 19877).1 = 19877) :=
  ⟨by decide,
   default_start_date_rule "buy groceries" 2 19877 (by decide) (by decide)
     (by decide) (by decide) (by decide) (by decide) (by decide) (by decide)⟩

/-- C6 counterexample: `"buy groceries"` (no trip vocabulary, no patterns)
resolves to `today + 3`, not `today + 1` as claimed; `"plan a trip"` (trip
vocabulary present) also resolves to `today + 3`, which is a Thursday here,
not a weekend-start day at least 2 days out.  (19877 = Monday 2024-06-03.) -/
theorem default_start_date_counterexample :
    parse_specific_date (pyLower "buy groceries") 19877 = none
    ∧ pyContains (pyLower "buy groceries") "today" = false
    ∧ pyContains (pyLower "buy groceries") "tomorrow" = false
    ∧ pyContains (pyLower "buy groceries") "next week" = false
    ∧ pyContains (pyLower "buy groceries") "next weekend" = false
    ∧ pyContains (pyLower "buy groceries") "this weekend" = false
    ∧ pyContains (pyLower "buy groceries") "next month" = false
    ∧ pyContains (pyLower "buy groceries") "in " = false
    ∧ pyContains (pyLower "buy groceries") "trip" = false
    ∧ pyContains (pyLower "buy groceries") "travel" = false
    ∧ pyContains (pyLower "buy groceries") "visit" = false
    ∧ pyContains (pyLower "buy groceries") "tour" = false
    ∧ pyContains (pyLower "buy groceries") "vacation" = false
    ∧ (calculate_trip_dates "buy groceries" 2 19877).1 = 19880
    ∧ (19880 : Int) ≠ 19877 + 1
    ∧ parse_specific_date (pyLower "plan a trip") 19877 = none
    ∧ pyContains (pyLower "plan a trip") "trip" = true
    ∧ pyContains (pyLower "plan a trip") "in " = false
    ∧ (calculate_trip_dates "plan a trip" 2 19877).1 = 19880
    ∧ pyWeekday 19880 ≠ 5 := by decide

/-! ## Claim C10 -/

/-- C10 (amended): any goal containing `"next weekend"` also contains
`"next week"`, so the earlier `"next week"` branch fires: the start is the
next Monday strictly after the reference.  On a Saturday reference that is
`today + 2` (Monday — agreeing with the claimed value by coincidence); on a
Sunday reference it is `today + 1` (Monday), not `today + 6`. -/
theorem next_weekend_shadowed_by_next_week (goal : String) (d today : Int)
    (h1 : parse_specific_date (pyLower goal) today = none)
    (h2 : pyContains (pyLower goal) "today" = false)
    (h3 : pyContains (pyLower goal) "tomorrow" = false)
    (h4 : pyContains (pyLower goal) "next weekend" = true) :
    (pyWeekday today = 5 → (calculate_trip_dates goal d today).1 = today + 2)
    ∧ (pyWeekday today = 6 → (calculate_trip_dates goal d today).1 = today + 1) := by
  have h5 : pyContains (pyLower goal) "next week" = true :=
    occursIn_trans (pyLower goal).toList "next weekend".toList "next week".toList
      (show occursIn (pyLower goal).toList "next weekend".toList = true from h4)
      (by decide)
  have h4' : pyContains (pyLower goal) "day after tomorrow" = false := by
    rcases Bool.eq_false_or_eq_true (pyContains (pyLower goal) "day after tomorrow")
      with ht | hf
    · have : pyContains (pyLower goal) "tomorrow" = true :=
        occursIn_trans (pyLower goal).toList "day after tomorrow".toList
          "tomorrow".toList
          (show occursIn (pyLower goal).toList "day after tomorrow".toList = true from ht)
          (by decide)
      rw [h3] at this
      exact absurd this (by decide)
    · exact hf
  constructor
  · intro hw
    have e1 : Int.fmod (7 - pyWeekday today) 7 = 2 := by rw [hw]; decide
    simp [calculate_trip_dates, tripStartDate, h1, h2, h3, h4', h5, e1]
  · intro hw
    have e1 : Int.fmod (7 - pyWeekday today) 7 = 1 := by rw [hw]; decide
    simp [calculate_trip_dates, tripStartDate, h1, h2, h3, h4', h5, e1]

/-- Witness for C10 (amended) at concrete inputs (19875 = Saturday
2024-06-01). -/
theorem next_weekend_shadowed_witness :
    (parse_specific_date (pyLower "next weekend") 19875 = none
     ∧ pyContains (pyLower "next weekend") "today" = false
     ∧ pyContains (pyLower "next weekend") "tomorrow" = false
     ∧ pyContains (pyLower "next weekend") "next weekend" = true
     ∧ pyWeekday 19875 = 5)
    ∧ ((pyWeekday 19875 = 5 →
         (calculate_trip_dates "next weekend" 2 19875).1 = 19875 + 2)
       ∧ (pyWeekday 19875 = 6 →
         (calculate_trip_dates "next weekend" 2 19875).1 = 19875 + 1)) :=
  ⟨by decide,
   next_weekend_shadowed_by_next_week "next weekend" 2 19875 (by decide)
     (by decide) (by decide) (by decide)⟩

/-- C10 counterexample: on a Sunday reference (19876 = Sunday 2024-06-02)
the goal `"next weekend"` resolves to `today + 1` (the following Monday),
not `today + 6` (the following Saturday) as claimed. -/
theorem next_weekend_sunday_counterexample :
    pyContains (pyLower "next weekend") "next weekend" = true
    ∧ parse_specific_date (pyLower "next weekend") 19876 = none
    ∧ pyContains (pyLower "next weekend") "today" = false
    ∧ pyContains (pyLower "next weekend") "tomorrow" = false
    ∧ pyWeekday 19876 = 6
    ∧ (calculate_trip_dates "next weekend" 2 19876).1 = 19877
    ∧ (19877 : Int) ≠ 19876 + 6 := by decide

/-! ## Claim C1 -/

theorem mkTripDay_date (fa : Bool) (groups : List (Int × List FItem))
    (cd : Option CurrData) (cur : Int) :
    (mkTripDay fa groups cd cur).date = fmtDate cur := by
  unfold mkTripDay
  split <;> rfl

theorem mkTripDay_dataSource (fa : Bool) (groups : List (Int × List FItem))
    (cd : Option CurrData) (cur : Int) :
    (mkTripDay fa groups cd cur).dataSource = "5-day forecast"
    ∨ (mkTripDay fa groups cd cur).dataSource
        = "Seasonal estimate (forecast unavailable)" := by
  unfold mkTripDay
  split
  · exact Or.inl rfl
  · exact Or.inr rfl

theorem process_forecast_days_eq (fd : ForecastPayload) (s e : Int) (fa : Bool)
    (cd : Option CurrData) (h : ¬(fa = true ∧ fd = ForecastPayload.noList)) :
    process_forecast_for_dates fd s e fa cd
      = (List.range (e + 1 - s).toNat).map (fun (i : Nat) =>
          mkTripDay fa (forecastGroups fa fd) cd (s + (i : Int))) := by
  unfold process_forecast_for_dates
  rw [if_neg h]

/-- C1 (amended): for every destination, reference day and date range of
`d = e - s + 1 ≥ 1` days, provided the forecast response is not an error
payload inside the forecast window (a truthy dict without a `"list"` key
while `days_until_trip ≤ 5`), the returned `daily_forecasts` timeline has
exactly `d` entries, one per calendar day from start to end inclusive in
increasing contiguous order, each one either a real-forecast aggregate
(`"5-day forecast"`) or a synthesized seasonal estimate.  In the excluded
error-payload case the code returns an empty timeline instead (see the
counterexample). -/
theorem daily_forecasts_cover_trip_days (city : String) (todayD s e : Int)
    (cd : Option CurrData) (resp : ForecastPayload) (_hse : s ≤ e)
    (hok : ¬(s - todayD ≤ 5 ∧ resp = ForecastPayload.noList)) :
    ((get_weather_for_trip_dates city todayD s e cd resp).dailyForecasts).length
        = (e - s + 1).toNat
    ∧ ((get_weather_for_trip_dates city todayD s e cd resp).dailyForecasts).map
          WDay.date
        = (List.range (e - s + 1).toNat).map (fun (i : Nat) => fmtDate (s + (i : Int)))
    ∧ ∀ w ∈ (get_weather_for_trip_dates city todayD s e cd resp).dailyForecasts,
        w.dataSource = "5-day forecast"
        ∨ w.dataSource = "Seasonal estimate (forecast unavailable)" := by
  have hforecasts :
      (get_weather_for_trip_dates city todayD s e cd resp).dailyForecasts
        = process_forecast_for_dates
            (if decide (s - todayD ≤ 5) then resp else ForecastPayload.absent)
            s e (decide (s - todayD ≤ 5)) cd := rfl
  have hguard : ¬((decide (s - todayD ≤ 5)) = true
      ∧ (if decide (s - todayD ≤ 5) then resp else ForecastPayload.absent)
          = ForecastPayload.noList) := by
    rintro ⟨hfa, hfd⟩
    rw [if_pos hfa] at hfd
    exact hok ⟨of_decide_eq_true hfa, hfd⟩
  have hes : e + 1 - s = e - s + 1 := by ring
  rw [hforecasts, process_forecast_days_eq _ _ _ _ _ hguard, hes]
  refine ⟨by rw [List.length_map, List.length_range], ?_, ?_⟩
  · rw [List.map_map]
    exact List.map_congr_left (fun i _ => mkTripDay_date _ _ _ _)
  · intro w hw
    rcases List.mem_map.mp hw with ⟨i, _, hi⟩
    rw [← hi]
    exact mkTripDay_dataSource _ _ _ _

/-- Witness for C1 (amended) at a concrete input (a trip 76 days out, so
seasonal estimates are used for both days). -/
theorem daily_forecasts_cover_trip_days_witness :
    ((19800 : Int) ≤ 19877
     ∧ ¬((19876 : Int) - 19800 ≤ 5 ∧ ForecastPayload.absent = ForecastPayload.noList))
    ∧ ((get_weather_for_trip_dates "Goa" 19800 19876 19877 none
          ForecastPayload.absent).dailyForecasts).length = ((19877 : Int) - 19876 + 1).toNat
    ∧ ((get_weather_for_trip_dates "Goa" 19800 19876 19877 none
          ForecastPayload.absent).dailyForecasts).map WDay.date
        = (List.range ((19877 : Int) - 19876 + 1).toNat).map
            (fun (i : Nat) => fmtDate (19876 + (i : Int)))
    ∧ ∀ w ∈ (get_weather_for_trip_dates "Goa" 19800 19876 19877 none
          ForecastPayload.absent).dailyForecasts,
        w.dataSource = "5-day forecast"
        ∨ w.dataSource = "Seasonal estimate (forecast unavailable)" := by
  refine ⟨by decide, ?_⟩
  have h := daily_forecasts_cover_trip_days "Goa" 19800 19876 19877 none
    ForecastPayload.absent (by decide) (by decide)
  exact h

/-- C1 counterexample: a trip 2 days out (inside the forecast window) whose
forecast response is an error payload without a `"list"` key yields an
empty `daily_forecasts`, not the claimed `d = 2` entries. -/
theorem daily_forecasts_empty_on_bad_payload :
    (get_weather_for_trip_dates "Paris" 19874 19876 19877 none
        ForecastPayload.noList).dailyForecasts = []
    ∧ ((19877 : Int) - 19876 + 1).toNat = 2
    ∧ ((get_weather_for_trip_dates "Paris" 19874 19876 19877 none
        ForecastPayload.noList).dailyForecasts).length ≠ 2 := by decide

/-! ## Claim C8 -/

/-- C8 (amended): with a weather dict present and a non-empty day date, the
attached `weather_info` is the one-element projection (all keys except
`total_rain_mm`) of the first timeline entry whose date string-matches, or
the one-element source/availability fallback when none matches — never an
empty list.  When the day's date is absent or the empty string the code
returns `[]` even though a timeline is present (see the counterexample). -/
theorem weather_attach_round_trip (wd : WeatherData) (dd : String)
    (hdd : dd ≠ "") :
    ((∃ d ∈ wd.dailyForecasts, d.date = dd) →
      ∃ d ∈ wd.dailyForecasts, d.date = dd ∧
        extract_day_weather_info (some wd) (some dd)
          = [WInfoEntry.full (projectWDay d)])
    ∧ ((∀ d ∈ wd.dailyForecasts, d.date ≠ dd) →
      extract_day_weather_info (some wd) (some dd)
        = [WInfoEntry.basic (wd.weatherSource.getD "Unknown")
            (wd.forecastAvailable.getD false)])
    ∧ extract_day_weather_info (some wd) (some dd) ≠ [] := by
  have hx : extract_day_weather_info (some wd) (some dd)
      = match wd.dailyForecasts.find? (fun d => d.date == dd) with
        | some d => [WInfoEntry.full (projectWDay d)]
        | none =>
          [WInfoEntry.basic (wd.weatherSource.getD "Unknown")
            (wd.forecastAvailable.getD false)] := by
    simp only [extract_day_weather_info]
    rw [if_neg hdd]
  cases hfind : wd.dailyForecasts.find? (fun d => d.date == dd) with
  | none =>
    rw [hfind] at hx
    refine ⟨?_, fun _ => hx, ?_⟩
    · rintro ⟨d, hmem, hdate⟩
      have := List.find?_eq_none.mp hfind d hmem
      simp [hdate] at this
    · rw [hx]; simp
  | some d =>
    rw [hfind] at hx
    have hmem := List.mem_of_find?_eq_some hfind
    have hdate : d.date = dd := by
      have := List.find?_some hfind
      simpa using this
    refine ⟨fun _ => ⟨d, hmem, hdate, hx⟩, ?_, ?_⟩
    · intro hall
      exact absurd hdate (hall d hmem)
    · rw [hx]; simp

/-- Witness for C8 (amended) at a concrete input. -/
theorem weather_attach_round_trip_witness :
    ("2024-06-01" ≠ "")
    ∧ (((∃ d ∈ sampleWeatherData.dailyForecasts, d.date = "2024-06-01") →
        ∃ d ∈ sampleWeatherData.dailyForecasts, d.date = "2024-06-01" ∧
          extract_day_weather_info (some sampleWeatherData) (some "2024-06-01")
            = [WInfoEntry.full (projectWDay d)])
      ∧ ((∀ d ∈ sampleWeatherData.dailyForecasts, d.date ≠ "2024-06-01") →
        extract_day_weather_info (some sampleWeatherData) (some "2024-06-01")
          = [WInfoEntry.basic (sampleWeatherData.weatherSource.getD "Unknown")
              (sampleWeatherData.forecastAvailable.getD false)])
      ∧ extract_day_weather_info (some sampleWeatherData) (some "2024-06-01") ≠ []) :=
  ⟨by decide, weather_attach_round_trip sampleWeatherData "2024-06-01" (by decide)⟩

/-- C8 counterexample: a day whose raw `date` is the empty string (or
absent) gets an empty `weather_info` list even though a weather timeline is
present — the claimed one-element fallback is not attached. -/
theorem weather_attach_empty_date_counterexample :
    extract_day_weather_info (some sampleWeatherData) (some "") = []
    ∧ extract_day_weather_info (some sampleWeatherData) none = []
    ∧ sampleWeatherData.dailyForecasts ≠ []
    ∧ sampleWeatherData.dailyForecasts.all (fun d => d.date != "") = true := by
  exact ⟨rfl, rfl, by simp [sampleWeatherData], rfl⟩

/-! ## Claims C2 and C7: the assembler -/

theorem statusOk_gives_ok (s : Option String) (h : statusOk s) :
    ∃ st, taskStatusOfString (s.getD "pending") = Except.ok st := by
  rcases h with h | h | h | h <;> subst h
  · exact ⟨TaskStatus.pending, rfl⟩
  · exact ⟨TaskStatus.pending, rfl⟩
  · exact ⟨TaskStatus.in_progress, rfl⟩
  · exact ⟨TaskStatus.completed, rfl⟩

theorem enrichTasks_ok (l : List RawTask) : ∀ (c : Nat),
    (∀ t ∈ l, statusOk t.status) →
    ∃ ts, enrichTasks c l = Except.ok ts ∧ List.Forall₂ taskMatches l ts := by
  induction l with
  | nil => exact fun c _ => ⟨[], rfl, List.Forall₂.nil⟩
  | cons t rest ih =>
    intro c h
    obtain ⟨st, hst⟩ := statusOk_gives_ok t.status (h t (List.mem_cons_self t rest))
    obtain ⟨ts, hts, hrel⟩ := ih (c + 1) (fun x hx => h x (List.mem_cons_of_mem t hx))
    refine ⟨{ id := c, title := t.title.getD "",
              description := t.description.getD "", status := st,
              estimatedDuration := t.estimatedDuration.getD "" } :: ts, ?_, ?_⟩
    · simp only [enrichTasks, hst, hts]
      rfl
    · exact List.Forall₂.cons ⟨rfl, rfl, rfl, hst⟩ hrel

theorem enrichDays_ok (w : Option WeatherData) (l : List RawDay) : ∀ (c : Nat),
    (∀ d ∈ l, ∀ t ∈ d.tasks, statusOk t.status) →
    ∃ ds, enrichDays w c l = Except.ok ds
      ∧ List.Forall₂ (dayMatches w) l ds := by
  induction l with
  | nil => exact fun c _ => ⟨[], rfl, List.Forall₂.nil⟩
  | cons d rest ih =>
    intro c h
    obtain ⟨ts, hts, htrel⟩ :=
      enrichTasks_ok d.tasks c (h d (List.mem_cons_self d rest))
    obtain ⟨ds, hds, hdrel⟩ :=
      ih (c + d.tasks.length) (fun x hx => h x (List.mem_cons_of_mem d hx))
    refine ⟨{ dayNumber := d.dayNumber.getD 1, date := d.date, tasks := ts,
              summary := d.summary.getD "",
              weatherInfo := extract_day_weather_info w d.date } :: ds, ?_, ?_⟩
    · simp only [enrichDays, hts, hds]
      rfl
    · exact List.Forall₂.cons ⟨rfl, rfl, rfl, rfl, htrel⟩ hdrel

/-- Master lemma: assembly succeeds whenever every raw task status is
absent or recognized, and the assembled plan matches the raw plan
field-by-field with the documented defaults. -/
theorem enrich_plan_ok (p : RawPlan) (w : Option WeatherData) (g : String)
    (h : ∀ d ∈ p.days, ∀ t ∈ d.tasks, statusOk t.status) :
    ∃ plan, enrich_plan_with_external_data p w g = Except.ok plan
      ∧ plan.goal = g
      ∧ plan.description = p.description.getD ""
      ∧ plan.totalDuration = p.totalDuration.getD "1 day"
      ∧ List.Forall₂ (dayMatches w) p.days plan.days := by
  obtain ⟨ds, hds, hdrel⟩ := enrichDays_ok w p.days 0 h
  refine ⟨{ id := 0, goal := g, description := p.description.getD "",
            days := ds, totalDuration := p.totalDuration.getD "1 day" }, ?_,
          rfl, rfl, rfl, hdrel⟩
  simp only [enrich_plan_with_external_data, hds]
  rfl

theorem taskMatches_status_none {rt : RawTask} {t : DomainTask}
    (hm : taskMatches rt t) (hn : rt.status = none) :
    t.status = TaskStatus.pending := by
  have h := hm.2.2.2
  rw [hn] at h
  simp [taskStatusOfString, Option.getD] at h
  exact h.symm

/-- C2 (amended): for every raw plan whose fields are strings-or-absent,
assembly returns a `Plan` without raising provided every present task
status is one of the recognized enum values, and every task whose status
field is absent is assigned status `pending`.  A present unrecognized
status value makes `TaskStatus(...)` raise `ValueError`, aborting assembly
(see the counterexample). -/
theorem assemble_total_and_status_default (p : RawPlan)
    (w : Option WeatherData) (g : String)
    (h : ∀ d ∈ p.days, ∀ t ∈ d.tasks, statusOk t.status) :
    ∃ plan, enrich_plan_with_external_data p w g = Except.ok plan
      ∧ List.Forall₂ (fun rd dd => List.Forall₂
          (fun rt t => rt.status = none → t.status = TaskStatus.pending)
          rd.tasks dd.tasks) p.days plan.days := by
  obtain ⟨plan, hok, _, _, _, hrel⟩ := enrich_plan_ok p w g h
  refine ⟨plan, hok, ?_⟩
  refine hrel.imp (fun rd dd hd => ?_)
  exact hd.2.2.2.2.imp (fun rt t hm hn => taskMatches_status_none hm hn)

/-- Witness for C2 (amended) at a concrete input. -/
theorem assemble_total_witness :
    (∀ d ∈ statusDefaultPlan.days, ∀ t ∈ d.tasks, statusOk t.status)
    ∧ ∃ plan, enrich_plan_with_external_data statusDefaultPlan none "goal"
          = Except.ok plan
      ∧ List.Forall₂ (fun rd dd => List.Forall₂
          (fun rt t => rt.status = none → t.status = TaskStatus.pending)
          rd.tasks dd.tasks) statusDefaultPlan.days plan.days :=
  ⟨by decide, assemble_total_and_status_default statusDefaultPlan none "goal" (by decide)⟩

/-- C2 counterexample: a raw task with the unrecognized status `"done"`
makes `TaskStatus("done")` raise `ValueError` — assembly raises instead of
defaulting the status to `pending`. -/
theorem assemble_raises_on_unrecognized_status :
    enrich_plan_with_external_data unrecognizedStatusPlan none "goal"
      = Except.error "done"
    ∧ statusOk (some "done") = False := by
  constructor
  · rfl
  · simp [statusOk]

/-- C7 (amended): the assembled task's description defaults to the empty
string when the raw description is absent (not to the task's title), and
is copied verbatim otherwise. -/
theorem task_description_defaults_to_empty (p : RawPlan)
    (w : Option WeatherData) (g : String)
    (h : ∀ d ∈ p.days, ∀ t ∈ d.tasks, statusOk t.status) :
    ∃ plan, enrich_plan_with_external_data p w g = Except.ok plan
      ∧ List.Forall₂ (fun rd dd => List.Forall₂
          (fun rt t => t.description = rt.description.getD "")
          rd.tasks dd.tasks) p.days plan.days := by
  obtain ⟨plan, hok, _, _, _, hrel⟩ := enrich_plan_ok p w g h
  refine ⟨plan, hok, ?_⟩
  refine hrel.imp (fun rd dd hd => ?_)
  exact hd.2.2.2.2.imp (fun rt t hm => hm.2.1)

/-- Witness for C7 (amended) at a concrete input. -/
theorem task_description_defaults_witness :
    (∀ d ∈ titledTaskPlan.days, ∀ t ∈ d.tasks, statusOk t.status)
    ∧ ∃ plan, enrich_plan_with_external_data titledTaskPlan none "g"
          = Except.ok plan
      ∧ List.Forall₂ (fun rd dd => List.Forall₂
          (fun rt t => t.description = rt.description.getD "")
          rd.tasks dd.tasks) titledTaskPlan.days plan.days :=
  ⟨by decide, task_description_defaults_to_empty titledTaskPlan none "g" (by decide)⟩

/-- C7 counterexample: for a raw task with title `"Visit the fort"` and no
description, the assembled description is `""`, not the title. -/
theorem task_description_not_title_counterexample :
    (enrich_plan_with_external_data titledTaskPlan none "g").toOption.map
        (fun plan => plan.days.map (fun d => d.tasks.map DomainTask.description))
      = some [[""]]
    ∧ ("" : String) ≠ "Visit the fort" := by
  exact ⟨rfl, by decide⟩

/-! ## Claim C4 -/

theorem orDefault_ne_null (o : Option JVal) (d : JVal) (hd : d ≠ JVal.jnull) :
    orDefault o d ≠ JVal.jnull := by
  cases o with
  | none => exact hd
  | some v =>
    show (if truthy v then v else d) ≠ JVal.jnull
    split
    · rename_i htr
      intro heq
      rw [heq] at htr
      exact absurd htr (by decide)
    · exact hd

/-- C4 (amended): extraction never raises — every failure outcome (model
exception, empty text, unparsable JSON, non-object JSON) returns the
default descriptor; the returned duration is always `≥ 1`; a string
duration is repaired to `max 1` of its first embedded integer, or 3 when
it has none; a `null` (or any non-`str`/non-`int`) duration falls back to
3; and activities/preferences are never `null` — an absent or `null` value
defaults to `[]`, but a truthy non-list value (e.g. a string) is passed
through unchanged rather than being made a list (see the counterexample). -/
theorem extract_goal_info_normalization :
    (extract_goal_information AIOutcome.err = default_goal_info
     ∧ extract_goal_information AIOutcome.empty = default_goal_info
     ∧ extract_goal_information AIOutcome.unparsable = default_goal_info)
    ∧ (∀ o : AIOutcome, 1 ≤ (extract_goal_information o).duration)
    ∧ (∀ (fields : List (String × JVal)) (s : String) (n : Int),
        getField fields "duration" = some (JVal.jstr s) →
        firstIntRun s.toList = some n →
        (process_extracted_info fields).duration = max 1 n)
    ∧ (∀ (fields : List (String × JVal)) (s : String),
        getField fields "duration" = some (JVal.jstr s) →
        firstIntRun s.toList = none →
        (process_extracted_info fields).duration = 3)
    ∧ (∀ fields : List (String × JVal),
        getField fields "duration" = some JVal.jnull →
        (process_extracted_info fields).duration = 3)
    ∧ (∀ fields : List (String × JVal),
        (process_extracted_info fields).activities ≠ JVal.jnull
        ∧ (process_extracted_info fields).preferences ≠ JVal.jnull)
    ∧ (∀ fields : List (String × JVal),
        (getField fields "activities" = none
         ∨ getField fields "activities" = some JVal.jnull) →
        (process_extracted_info fields).activities = JVal.jarr []) := by
  refine ⟨⟨rfl, rfl, rfl⟩, ?_, ?_, ?_, ?_, ?_, ?_⟩
  · intro o
    cases o with
    | err => decide
    | empty => decide
    | unparsable => decide
    | parsed v =>
      cases v with
      | jobj fields =>
        show 1 ≤ (process_extracted_info fields).duration
        exact le_max_left 1 _
      | jnull => exact (by decide : (1 : Int) ≤ 3)
      | jbool b => exact (by decide : (1 : Int) ≤ 3)
      | jint n => exact (by decide : (1 : Int) ≤ 3)
      | jnum q => exact (by decide : (1 : Int) ≤ 3)
      | jstr s => exact (by decide : (1 : Int) ≤ 3)
      | jarr l => exact (by decide : (1 : Int) ≤ 3)
  · intro fields s n h1 h2
    have h2' : firstIntRun s.data = some n := h2
    simp [process_extracted_info, h1, normalizeDuration, h2']
  · intro fields s h1 h2
    have h2' : firstIntRun s.data = none := h2
    simp [process_extracted_info, h1, normalizeDuration, h2']
  · intro fields h1
    simp [process_extracted_info, h1, normalizeDuration]
  · intro fields
    exact ⟨orDefault_ne_null _ _ (fun h => JVal.noConfusion h),
           orDefault_ne_null _ _ (fun h => JVal.noConfusion h)⟩
  · intro fields h1
    rcases h1 with h1 | h1 <;> simp [process_extracted_info, orDefault, h1, truthy]

/-- Witness for C4 (amended) at concrete inputs. -/
theorem extract_goal_info_normalization_witness :
    (getField [("duration", JVal.jstr "5-7")] "duration" = some (JVal.jstr "5-7")
     ∧ firstIntRun "5-7".toList = some 5)
    ∧ (process_extracted_info [("duration", JVal.jstr "5-7")]).duration = max 1 5 :=
  ⟨⟨rfl, rfl⟩,
   extract_goal_info_normalization.2.2.1 [("duration", JVal.jstr "5-7")] "5-7" 5
     rfl rfl⟩

/-- C4 counterexample: a truthy non-list `activities` value (the string
`"hiking"`) is passed through unchanged — the result is not a list, so
activities are not "always lists". -/
theorem activities_not_always_lists_counterexample :
    (extract_goal_information
        (AIOutcome.parsed (JVal.jobj [("activities", JVal.jstr "hiking")]))).activities
      = JVal.jstr "hiking"
    ∧ isJArr (extract_goal_information
        (AIOutcome.parsed (JVal.jobj [("activities", JVal.jstr "hiking")]))).activities
      = false := ⟨rfl, rfl⟩

/-! ## Claim C9 -/

/-- C9 (amended): a generic error whose text carries `429` together with a
(lowercased) `quota` marker is classified `QUOTA_EXCEEDED` and mapped to a
429 response carrying the retry-after hint parsed from the error text; an
error with a `rate limit` marker (and not the quota combination) is
classified `RATE_LIMITED` and mapped to a 429 response that carries no
retry-after hint even when one is encoded (see the counterexample); every
other generic error maps to a 500 response. -/
theorem quota_rate_limit_classification (msg : String) :
    (pyContains msg "429" = true → pyContains (pyLower msg) "quota" = true →
      handle_exceptions (RaisedExc.generic msg)
        = { status := 429, errorType := some "QUOTA_EXCEEDED",
            retryAfter := retrySearch msg.toList })
    ∧ (¬(pyContains msg "429" = true ∧ pyContains (pyLower msg) "quota" = true) →
        pyContains (pyLower msg) "rate limit" = true →
      handle_exceptions (RaisedExc.generic msg)
        = { status := 429, errorType := some "RATE_LIMITED", retryAfter := none })
    ∧ (¬(pyContains msg "429" = true ∧ pyContains (pyLower msg) "quota" = true) →
        pyContains (pyLower msg) "rate limit" = false →
      handle_exceptions (RaisedExc.generic msg)
        = { status := 500, errorType := none, retryAfter := none }) := by
  refine ⟨fun h1 h2 => ?_, fun h1 h2 => ?_, fun h1 h2 => ?_⟩ <;>
    simp [handle_exceptions, h1, h2]

/-- Witness for C9 (amended) at a concrete input. -/
theorem quota_classification_witness :
    (pyContains "429 quota exceeded, retry in 21s" "429" = true
     ∧ pyContains (pyLower "429 quota exceeded, retry in 21s") "quota" = true)
    ∧ handle_exceptions (RaisedExc.generic "429 quota exceeded, retry in 21s")
        = { status := 429, errorType := some "QUOTA_EXCEEDED",
            retryAfter := retrySearch "429 quota exceeded, retry in 21s".toList } :=
  ⟨⟨by decide, by decide⟩,
   (quota_rate_limit_classification "429 quota exceeded, retry in 21s").1
     (by decide) (by decide)⟩

/-- C9 counterexample: a rate-limited error text that encodes a retry delay
(`retry in 5s`) is mapped to a 429 response whose `retry_after` is absent —
the encoded hint is not carried, contradicting the claim. -/
theorem rate_limit_retry_hint_dropped :
    pyContains (pyLower "Rate limit exceeded, retry in 5s") "rate limit" = true
    ∧ retrySearch "Rate limit exceeded, retry in 5s".toList = some 5
    ∧ handle_exceptions (RaisedExc.generic "Rate limit exceeded, retry in 5s")
        = { status := 429, errorType := some "RATE_LIMITED", retryAfter := none }
    ∧ some (5 : Int) ≠ (none : Option Int) := by decide

/-! ## Claim C5: per-day real-forecast aggregation

Claim-side formulations used to compare against `aggregateForecastDay`:
`maxNat`/`maxQ0` are plain maxima, and the dominant condition is specified
as the first element of the day's condition sequence whose count is
maximal. -/

theorem le_maxNat_of_mem {x : Nat} : ∀ {l : List Nat}, x ∈ l → x ≤ maxNat l := by
  intro l
  induction l with
  | nil => intro h; cases h
  | cons h t ih =>
    intro hx
    rcases List.mem_cons.mp hx with rfl | hx
    · exact le_max_left _ _
    · exact (ih hx).trans (le_max_right _ _)

theorem maxNat_le {b : Nat} : ∀ {l : List Nat}, (∀ x ∈ l, x ≤ b) → maxNat l ≤ b := by
  intro l
  induction l with
  | nil => intro _; exact Nat.zero_le b
  | cons h t ih =>
    intro hall
    exact max_le (hall h (List.mem_cons_self h t))
      (ih fun x hx => hall x (List.mem_cons_of_mem h hx))

theorem maxQ0_nonneg : ∀ (l : List ℚ), 0 ≤ maxQ0 l := by
  intro l
  induction l with
  | nil => exact le_refl 0
  | cons h t ih => exact ih.trans (le_max_right h (maxQ0 t))

theorem mem_dictKeys : ∀ (l : List String) (a : String), a ∈ dictKeys l ↔ a ∈ l := by
  intro l
  induction l with
  | nil => intro a; rfl
  | cons c t ih =>
    intro a
    simp only [dictKeys, List.mem_cons, List.mem_filter, ih, bne_iff_ne]
    constructor
    · rintro (rfl | ⟨ha, _⟩)
      · exact Or.inl rfl
      · exact Or.inr ha
    · rintro (rfl | ha)
      · exact Or.inl rfl
      · by_cases hac : a = c
        · exact Or.inl hac
        · exact Or.inr ⟨ha, hac⟩

theorem find?_filter_ne (p : String → Bool) (c : String) (hc : p c = false) :
    ∀ (l : List String), (l.filter (fun x => x != c)).find? p = l.find? p := by
  intro l
  induction l with
  | nil => rfl
  | cons d t ih =>
    by_cases hdc : d = c
    · subst hdc
      have hfilter : (d :: t).filter (fun x => x != d) = t.filter (fun x => x != d) := by
        simp [List.filter_cons]
      rw [hfilter, ih, List.find?_cons_of_neg _ (by simp [hc])]
    · have hfilter : (d :: t).filter (fun x => x != c)
          = d :: t.filter (fun x => x != c) := by
        simp [List.filter_cons, bne_iff_ne, hdc]
      rw [hfilter]
      by_cases hp : p d = true
      · rw [List.find?_cons_of_pos _ hp, List.find?_cons_of_pos _ hp]
      · rw [List.find?_cons_of_neg _ hp, List.find?_cons_of_neg _ hp, ih]

theorem find?_dictKeys (p : String → Bool) :
    ∀ (l : List String), (dictKeys l).find? p = l.find? p := by
  intro l
  induction l with
  | nil => rfl
  | cons c t ih =>
    simp only [dictKeys]
    by_cases hp : p c = true
    · rw [List.find?_cons_of_pos _ hp, List.find?_cons_of_pos _ hp]
    · have hp' : p c = false := Bool.eq_false_iff.mpr hp
      rw [List.find?_cons_of_neg _ hp, List.find?_cons_of_neg _ hp,
        find?_filter_ne p c hp', ih]

theorem maxNat_map_eq_of_mem_iff (score : String → Nat) (l1 l2 : List String)
    (h : ∀ a, a ∈ l1 ↔ a ∈ l2) :
    maxNat (l1.map score) = maxNat (l2.map score) := by
  apply Nat.le_antisymm
  · apply maxNat_le
    intro x hx
    rcases List.mem_map.mp hx with ⟨a, ha, rfl⟩
    exact le_maxNat_of_mem (List.mem_map_of_mem score ((h a).mp ha))
  · apply maxNat_le
    intro x hx
    rcases List.mem_map.mp hx with ⟨a, ha, rfl⟩
    exact le_maxNat_of_mem (List.mem_map_of_mem score ((h a).mpr ha))

theorem firstMaxAux_stay (score : String → Nat) :
    ∀ (rest : List String) (b : String),
    (∀ c ∈ rest, score c ≤ score b) → firstMaxAux score b rest = b := by
  intro rest
  induction rest with
  | nil => intro b _; rfl
  | cons c t ih =>
    intro b h
    have hc : ¬(score b < score c) :=
      not_lt.mpr (h c (List.mem_cons_self c t))
    simp only [firstMaxAux, if_neg hc]
    exact ih b (fun x hx => h x (List.mem_cons_of_mem c hx))

theorem find?_cons_true {α : Type} (p : α → Bool) (a : α) (l : List α)
    (h : p a = true) : (a :: l).find? p = some a := by
  simp [List.find?, h]

theorem find?_cons_false {α : Type} (p : α → Bool) (a : α) (l : List α)
    (h : p a = false) : (a :: l).find? p = l.find? p := by
  simp [List.find?, h]

theorem firstMaxAux_find (score : String → Nat) :
    ∀ (rest : List String) (b : String),
    (b :: rest).find? (fun c => score c == max (score b) (maxNat (rest.map score)))
      = some (firstMaxAux score b rest) := by
  intro rest
  induction rest with
  | nil =>
    intro b
    rw [find?_cons_true (fun c => score c == max (score b) (maxNat (List.map score [])))
      b [] (by simp [maxNat])]
    rfl
  | cons c t ih =>
    intro b
    have hsplit : maxNat ((c :: t).map score)
        = max (score c) (maxNat (t.map score)) := rfl
    by_cases hb : score b = max (score b) (maxNat ((c :: t).map score))
    · have hstay : firstMaxAux score b (c :: t) = b := by
        apply firstMaxAux_stay
        intro x hx
        have h1 : score x ≤ maxNat ((c :: t).map score) :=
          le_maxNat_of_mem (List.mem_map_of_mem score hx)
        omega
      rw [find?_cons_true
        (fun x => score x == max (score b) (maxNat ((c :: t).map score)))
        b (c :: t) (by simpa using hb), hstay]
    · have hpredb : (fun x => score x == max (score b) (maxNat ((c :: t).map score))) b
          = false := by simpa using hb
      rw [find?_cons_false
        (fun x => score x == max (score b) (maxNat ((c :: t).map score)))
        b (c :: t) hpredb]
      by_cases hbc : score b < score c
      · have hM : max (score b) (maxNat ((c :: t).map score))
            = max (score c) (maxNat (t.map score)) := by
          rw [hsplit]; omega
        have hfm : firstMaxAux score b (c :: t) = firstMaxAux score c t := by
          simp only [firstMaxAux, if_pos hbc]
        rw [hfm, hM, ih c]
      · have hM : max (score b) (maxNat ((c :: t).map score))
            = max (score b) (maxNat (t.map score)) := by
          rw [hsplit]; omega
        have hpredc : (fun x => score x == max (score b) (maxNat ((c :: t).map score))) c
            = false := by
          simp only [beq_eq_false_iff_ne, ne_eq]
          omega
        rw [find?_cons_false
          (fun x => score x == max (score b) (maxNat ((c :: t).map score)))
          c t hpredc]
        have hfm : firstMaxAux score b (c :: t) = firstMaxAux score b t := by
          simp only [firstMaxAux, if_neg hbc]
        have iht := ih b
        rw [← hM] at iht
        rw [find?_cons_false
          (fun x => score x == max (score b) (maxNat ((c :: t).map score)))
          b t hpredb] at iht
        rw [hfm, ← iht]

theorem pyMaxByCount_spec (conds : List String) (h : conds ≠ []) :
    some (pyMaxByCount conds (dictKeys conds))
      = conds.find? (fun c => conds.count c
          == maxNat (conds.map (fun x => conds.count x))) := by
  cases conds with
  | nil => exact absurd rfl h
  | cons c0 rest =>
    have hfind := firstMaxAux_find (fun x => (c0 :: rest).count x)
      ((dictKeys rest).filter (fun x => x != c0)) c0
    have hM1 : max ((c0 :: rest).count c0)
          (maxNat (((dictKeys rest).filter (fun x => x != c0)).map
            (fun x => (c0 :: rest).count x)))
        = maxNat ((c0 :: rest).map (fun x => (c0 :: rest).count x)) := by
      have h1 : max ((c0 :: rest).count c0)
            (maxNat (((dictKeys rest).filter (fun x => x != c0)).map
              (fun x => (c0 :: rest).count x)))
          = maxNat ((dictKeys (c0 :: rest)).map (fun x => (c0 :: rest).count x)) := rfl
      rw [h1]
      exact maxNat_map_eq_of_mem_iff (fun x => (c0 :: rest).count x)
        (dictKeys (c0 :: rest)) (c0 :: rest) (mem_dictKeys (c0 :: rest))
    rw [hM1] at hfind
    refine Eq.trans ?_ (find?_dictKeys
      (fun c => (c0 :: rest).count c
        == maxNat ((c0 :: rest).map (fun x => (c0 :: rest).count x))) (c0 :: rest))
    exact hfind.symm

theorem foldl_min_spec : ∀ (t : List ℚ) (a : ℚ),
    (List.foldl min a t = a ∨ List.foldl min a t ∈ t)
    ∧ List.foldl min a t ≤ a ∧ ∀ x ∈ t, List.foldl min a t ≤ x := by
  intro t
  induction t with
  | nil =>
    intro a
    exact ⟨Or.inl rfl, le_refl a, fun x hx => absurd hx (List.not_mem_nil x)⟩
  | cons h rest ih =>
    intro a
    obtain ⟨hmem, hle, hall⟩ := ih (min a h)
    refine ⟨?_, ?_, ?_⟩
    · rcases hmem with heq | hmem
      · rcases min_choice a h with hm | hm
        · exact Or.inl (heq.trans hm)
        · refine Or.inr ?_
          have h2 : List.foldl min a (h :: rest) = h := by
            show List.foldl min (min a h) rest = h
            rw [heq, hm]
          rw [h2]
          exact List.mem_cons_self h rest
      · exact Or.inr (List.mem_cons_of_mem h hmem)
    · exact hle.trans (min_le_left a h)
    · intro x hx
      rcases List.mem_cons.mp hx with rfl | hx
      · exact hle.trans (min_le_right a x)
      · exact hall x hx

theorem listMinQ_spec (l : List ℚ) (h : l ≠ []) :
    listMinQ l ∈ l ∧ ∀ x ∈ l, listMinQ l ≤ x := by
  cases l with
  | nil => exact absurd rfl h
  | cons a t =>
    obtain ⟨hmem, hle, hall⟩ := foldl_min_spec t a
    constructor
    · rcases hmem with heq | hmem
      · have h2 : listMinQ (a :: t) = a := heq
        rw [h2]
        exact List.mem_cons_self a t
      · exact List.mem_cons_of_mem a hmem
    · intro x hx
      rcases List.mem_cons.mp hx with rfl | hx
      · exact hle
      · exact hall x hx

theorem foldl_max_spec : ∀ (t : List ℚ) (a : ℚ),
    (List.foldl max a t = a ∨ List.foldl max a t ∈ t)
    ∧ a ≤ List.foldl max a t ∧ ∀ x ∈ t, x ≤ List.foldl max a t := by
  intro t
  induction t with
  | nil =>
    intro a
    exact ⟨Or.inl rfl, le_refl a, fun x hx => absurd hx (List.not_mem_nil x)⟩
  | cons h rest ih =>
    intro a
    obtain ⟨hmem, hle, hall⟩ := ih (max a h)
    refine ⟨?_, ?_, ?_⟩
    · rcases hmem with heq | hmem
      · rcases max_choice a h with hm | hm
        · exact Or.inl (heq.trans hm)
        · refine Or.inr ?_
          have h2 : List.foldl max a (h :: rest) = h := by
            show List.foldl max (max a h) rest = h
            rw [heq, hm]
          rw [h2]
          exact List.mem_cons_self h rest
      · exact Or.inr (List.mem_cons_of_mem h hmem)
    · exact (le_max_left a h).trans hle
    · intro x hx
      rcases List.mem_cons.mp hx with rfl | hx
      · exact (le_max_right a x).trans hle
      · exact hall x hx

theorem listMaxQ_spec (l : List ℚ) (h : l ≠ []) :
    listMaxQ l ∈ l ∧ ∀ x ∈ l, x ≤ listMaxQ l := by
  cases l with
  | nil => exact absurd rfl h
  | cons a t =>
    obtain ⟨hmem, hle, hall⟩ := foldl_max_spec t a
    constructor
    · rcases hmem with heq | hmem
      · have h2 : listMaxQ (a :: t) = a := heq
        rw [h2]
        exact List.mem_cons_self a t
      · exact List.mem_cons_of_mem a hmem
    · intro x hx
      rcases List.mem_cons.mp hx with rfl | hx
      · exact hle
      · exact hall x hx

theorem foldl_add_eq (l : List ℚ) : ∀ a : ℚ, List.foldl (· + ·) a l = a + l.sum := by
  induction l with
  | nil => intro a; simp
  | cons h t ih =>
    intro a
    have : List.foldl (· + ·) a (h :: t) = List.foldl (· + ·) (a + h) t := rfl
    rw [this, ih, List.sum_cons, add_assoc]

theorem listSumQ_eq_sum (l : List ℚ) : listSumQ l = l.sum := by
  unfold listSumQ
  rw [foldl_add_eq]
  exact zero_add _

theorem rainFold_spec : ∀ (pts : List FItem) (acc : ℚ × ℚ), 0 ≤ acc.1 →
    (pts.foldl rainFoldStep acc).1
      = max acc.1 (maxQ0 ((pts.filter (fun p => p.rain.isSome)).map
          (fun p => (p.pop.getD 0) * 100)))
    ∧ (pts.foldl rainFoldStep acc).2
      = acc.2 + (pts.map (fun p => p.rain.getD 0)).sum := by
  intro pts
  induction pts with
  | nil =>
    intro acc hacc
    constructor
    · show acc.1 = max acc.1 (maxQ0 [])
      rw [show maxQ0 [] = 0 from rfl, max_eq_left hacc]
    · show acc.2 = acc.2 + ([] : List ℚ).sum
      simp
  | cons p rest ih =>
    intro acc hacc
    cases hp : p.rain with
    | none =>
      have hstep : rainFoldStep acc p = acc := by
        simp [rainFoldStep, hp]
      have hfilter : (p :: rest).filter (fun q => q.rain.isSome)
          = rest.filter (fun q => q.rain.isSome) := by
        simp [List.filter_cons, hp]
      have hfold : (p :: rest).foldl rainFoldStep acc = rest.foldl rainFoldStep acc := by
        show rest.foldl rainFoldStep (rainFoldStep acc p) = rest.foldl rainFoldStep acc
        rw [hstep]
      obtain ⟨h1, h2⟩ := ih acc hacc
      refine ⟨?_, ?_⟩
      · rw [hfold, hfilter, h1]
      · rw [hfold, h2, List.map_cons, List.sum_cons, hp]
        show acc.2 + _ = acc.2 + ((Option.getD none 0) + _)
        rw [Option.getD_none, zero_add]
    | some amt =>
      have hstep : rainFoldStep acc p
          = (max acc.1 ((p.pop.getD 0) * 100), acc.2 + amt) := by
        simp [rainFoldStep, hp]
      have hfilter : (p :: rest).filter (fun q => q.rain.isSome)
          = p :: rest.filter (fun q => q.rain.isSome) := by
        simp [List.filter_cons, hp]
      have hfold : (p :: rest).foldl rainFoldStep acc
          = rest.foldl rainFoldStep (max acc.1 ((p.pop.getD 0) * 100), acc.2 + amt) := by
        show rest.foldl rainFoldStep (rainFoldStep acc p) = _
        rw [hstep]
      have hacc2 : (0 : ℚ) ≤ (max acc.1 ((p.pop.getD 0) * 100), acc.2 + amt).1 :=
        hacc.trans (le_max_left _ _)
      obtain ⟨h1, h2⟩ := ih (max acc.1 ((p.pop.getD 0) * 100), acc.2 + amt) hacc2
      refine ⟨?_, ?_⟩
      · rw [hfold, h1, hfilter, List.map_cons]
        show max (max acc.1 _) _ = max acc.1 (max _ _)
        rw [max_assoc]
      · rw [hfold, h2, List.map_cons, List.sum_cons, hp]
        show (acc.2 + amt) + _ = acc.2 + ((Option.getD (some amt) 0) + _)
        rw [Option.getD_some, add_assoc]

/-- C5 (amended): for every nonempty list of forecast points of one day,
the aggregated entry has min/max temperature equal to a least/greatest
element of the day's temperatures (rounded to one decimal), average equal
to their rounded mean, condition equal to the first condition label of
maximal count (first-seen tie-break), cumulative precipitation equal to the
rounded sum of the points' rain amounts — but the rain probability is the
rounded maximum of `pop * 100` over only the points that carry a `rain`
field (0 when none does), not over all points (see the counterexample). -/
theorem forecast_day_aggregation (pts : List FItem) (hne : pts ≠ []) :
    ((aggregateForecastDay pts).minTemp = pyRound1 (listMinQ (pts.map FItem.temp))
      ∧ listMinQ (pts.map FItem.temp) ∈ pts.map FItem.temp
      ∧ ∀ x ∈ pts.map FItem.temp, listMinQ (pts.map FItem.temp) ≤ x)
    ∧ ((aggregateForecastDay pts).maxTemp = pyRound1 (listMaxQ (pts.map FItem.temp))
      ∧ listMaxQ (pts.map FItem.temp) ∈ pts.map FItem.temp
      ∧ ∀ x ∈ pts.map FItem.temp, x ≤ listMaxQ (pts.map FItem.temp))
    ∧ (aggregateForecastDay pts).avgTemp
        = pyRound1 ((pts.map FItem.temp).sum / ((pts.map FItem.temp).length : ℚ))
    ∧ some (aggregateForecastDay pts).condition
        = (pts.map FItem.condMain).find?
            (fun c => (pts.map FItem.condMain).count c
              == maxNat ((pts.map FItem.condMain).map
                  (fun x => (pts.map FItem.condMain).count x)))
    ∧ (aggregateForecastDay pts).totalRainMm
        = pyRound1 ((pts.map (fun p => p.rain.getD 0)).sum)
    ∧ (aggregateForecastDay pts).rainProbability
        = roundHalfEven (maxQ0 ((pts.filter (fun p => p.rain.isSome)).map
            (fun p => (p.pop.getD 0) * 100))) := by
  have htne : pts.map FItem.temp ≠ [] := by
    intro hmap
    exact hne (List.map_eq_nil_iff.mp hmap)
  have hcne : pts.map FItem.condMain ≠ [] := by
    intro hmap
    exact hne (List.map_eq_nil_iff.mp hmap)
  obtain ⟨hrain1, hrain2⟩ := rainFold_spec pts ((0 : ℚ), (0 : ℚ)) (le_refl 0)
  refine ⟨⟨rfl, listMinQ_spec _ htne⟩, ⟨rfl, listMaxQ_spec _ htne⟩, ?_, ?_, ?_, ?_⟩
  · show pyRound1 (listSumQ (pts.map FItem.temp) / ((pts.map FItem.temp).length : ℚ))
        = pyRound1 ((pts.map FItem.temp).sum / ((pts.map FItem.temp).length : ℚ))
    rw [listSumQ_eq_sum]
  · exact pyMaxByCount_spec (pts.map FItem.condMain) hcne
  · show pyRound1 (pts.foldl rainFoldStep ((0 : ℚ), (0 : ℚ))).2
        = pyRound1 ((pts.map (fun p => p.rain.getD 0)).sum)
    rw [hrain2, zero_add]
  · show roundHalfEven (pts.foldl rainFoldStep ((0 : ℚ), (0 : ℚ))).1
        = roundHalfEven (maxQ0 ((pts.filter (fun p => p.rain.isSome)).map
            (fun p => (p.pop.getD 0) * 100)))
    rw [hrain1, max_eq_right (maxQ0_nonneg _)]

/-- Witness for C5 (amended) at a concrete input (the cumulative
precipitation conjunct of the theorem instantiated at a two-point day). -/
theorem forecast_day_aggregation_witness :
    ([rainlessPoint, rainyPoint] ≠ [])
    ∧ (aggregateForecastDay [rainlessPoint, rainyPoint]).totalRainMm
        = pyRound1 (([rainlessPoint, rainyPoint].map (fun p => p.rain.getD 0)).sum) :=
  ⟨by decide, (forecast_day_aggregation [rainlessPoint, rainyPoint]
    (by decide)).2.2.2.2.1⟩

/-- C5 counterexample: a day with a rain-less point of `pop = 0.9` and a
rain-carrying point of `pop = 0.1` gets rain probability 10, while the
maximum single-point probability observed among the day's points is 90 —
the claim's all-points maximum does not hold. -/
theorem rain_probability_ignores_rainless_points :
    (aggregateForecastDay [rainlessPoint, rainyPoint]).rainProbability = 10
    ∧ roundHalfEven (maxQ0 ([rainlessPoint, rainyPoint].map
        (fun p => (p.pop.getD 0) * 100))) = 90
    ∧ (10 : Int) ≠ 90 := by
  refine ⟨?_, ?_, by decide⟩
  · norm_num [aggregateForecastDay, rainFoldStep, roundHalfEven, rainlessPoint,
      rainyPoint]
  · norm_num [maxQ0, roundHalfEven, rainlessPoint, rainyPoint]

/-! ## Sanity checks (concrete evaluations of the embedding) -/

example : daysFromCivil 1970 1 1 = 0 := by decide

example : civilFromDays 0 = (1970, 1, 1) := by decide

example : daysFromCivil 2024 6 2 = 19876 := by decide

example : civilFromDays 19876 = (2024, 6, 2) := by decide

example : pyWeekday 19876 = 6 := by decide

example : fmtDate 19876 = "2024-06-02" := by decide

example : pyDayName 19876 = "Sunday" := by decide

example : pyContains "plan a trip next weekend" "next week" = true := by decide

example : pyContains "buy groceries" "in " = false := by decide

example : p1Search "visit on 25th oct".toList = some (25, ['o', 'c', 't']) := by decide

example : p2Search "go on 23 sep trip".toList = some (23, ['s', 'e', 'p']) := by decide

example : p2Search "123 jan".toList = some (23, ['j', 'a', 'n']) := by decide

example : p3Search "visit goa on june 15".toList = some (['j', 'u', 'n', 'e'], 15) := by decide

example : offsetSearch "leaving in 3 days".toList = some (3, false) := by decide

example : offsetSearch "in 2 weeks".toList = some (2, true) := by decide

example : firstIntRun "7+".toList = some 7 := by decide

example : firstIntRun "5-7".toList = some 5 := by decide

example : parse_specific_date "visit on 25th oct" (daysFromCivil 2024 1 10) =
    some (daysFromCivil 2024 10 25) := by decide

example : parse_specific_date "visit on 5th jan" (daysFromCivil 2024 6 1) =
    some (daysFromCivil 2025 1 5) := by decide

example : parse_specific_date "visit on 31st apr or later" (daysFromCivil 2024 1 10) =
    none := by decide

example : tripStartDate "plan a trip next weekend" (daysFromCivil 2024 6 5) =
    daysFromCivil 2024 6 10 := by decide

example : tripStartDate "plan a trip this weekend" (daysFromCivil 2024 6 5) =
    daysFromCivil 2024 6 8 := by decide

example : tripStartDate "dinner tomorrow" 100 = 101 := by decide

example : tripStartDate "go in 2 weeks" 100 = 114 := by decide

example : tripStartDate "relax in paris" 100 = 100 := by decide

example : tripStartDate "buy groceries" 100 = 103 := by decide

example : tripStartDate "trip next month" (daysFromCivil 2024 6 5) =
    daysFromCivil 2024 7 6 := by decide

example : roundHalfEven (5 / 2) = 2 := by norm_num [roundHalfEven]

example : roundHalfEven (7 / 2) = 4 := by norm_num [roundHalfEven]

example : roundHalfEven (-1 / 2) = 0 := by norm_num [roundHalfEven]

example : pyRound1 (314 / 100) = 31 / 10 := by norm_num [pyRound1, roundHalfEven]

example :
    (get_weather_for_trip_dates "Paris" 98 100 101 none ForecastPayload.noList).dailyForecasts
      = [] := by decide

example :
    (process_forecast_for_dates ForecastPayload.absent 19876 19877 false none).map WDay.date
      = ["2024-06-02", "2024-06-03"] := by decide

example :
    (process_forecast_for_dates ForecastPayload.absent 19876 19877 false none).map WDay.dataSource
      = ["Seasonal estimate (forecast unavailable)", "Seasonal estimate (forecast unavailable)"] := by
  decide

example :
    (aggregateForecastDay
      [ { dt := 8640000, temp := 20, condMain := "Clear", condDescription := "clear sky",
          humidity := 50, windSpeed := 3, pop := some (9 / 10), rain := none },
        { dt := 8640300, temp := 22, condMain := "Clouds", condDescription := "few clouds",
          humidity := 55, windSpeed := 4, pop := some (1 / 10), rain := some 1 } ]).rainProbability
      = 10 := by
  norm_num [aggregateForecastDay, rainFoldStep, roundHalfEven]

example :
    enrich_plan_with_external_data
      { days := [ { dayNumber := some 1, date := some "2024-06-01",
                    tasks := [ { title := some "Arrive", description := none,
                                 estimatedDuration := none, status := some "done" } ],
                    summary := none } ],
        description := none, totalDuration := none } none "goal"
      = Except.error "done" := by rfl

example :
    enrich_plan_with_external_data { days := [], description := none, totalDuration := none }
      none "g"
      = Except.ok { id := 0, goal := "g", description := "", days := [],
                    totalDuration := "1 day" } := by rfl

example : (process_extracted_info [("duration", JVal.jstr "7+")]).duration = 7 := by rfl

example : (process_extracted_info [("duration", JVal.jstr "5-7")]).duration = 5 := by rfl

example : (process_extracted_info [("duration", JVal.jstr "soon")]).duration = 3 := by rfl

example : (process_extracted_info [("duration", JVal.jint 0)]).duration = 1 := by rfl

example : (process_extracted_info [("duration", JVal.jnull)]).duration = 3 := by rfl

example : (process_extracted_info []).duration = 3 := by rfl

example : (process_extracted_info [("activities", JVal.jnull)]).activities
    = JVal.jarr [] := by rfl

example : (process_extracted_info [("activities", JVal.jstr "hiking")]).activities
    = JVal.jstr "hiking" := by rfl

example : handle_exceptions (RaisedExc.generic "429 quota exceeded, please retry in 38.5s later")
    = { status := 429, errorType := some "QUOTA_EXCEEDED", retryAfter := some 38 } := by decide

example : handle_exceptions (RaisedExc.generic "Rate limit reached")
    = { status := 429, errorType := some "RATE_LIMITED", retryAfter := none } := by decide

example : handle_exceptions (RaisedExc.generic "boom")
    = { status := 500, errorType := none, retryAfter := none } := by decide
